import Mathlib

/-!
Shallow embedding of the cubic-Bezier fitting engine in
`src/qtloops/beziers.cpp` (Schneider's algorithm as adapted for veusz).

Modelling conventions
* `QPointF` becomes `Pt := ℝ × ℝ`; C++ `double` arithmetic is embedded as
  exact real arithmetic.  Consequently `isNaN` is identically `false` and
  `isFinite` is identically `true`: real numbers have no NaN/infinity, so
  the corresponding fallback branches of the source are unreachable in the
  model (they are kept in the definitions where they shape control flow).
* Arrays indexed by `unsigned` become `List`s accessed with `getD`
  (out-of-range reads never happen on the paths the source exercises).
* Output parameters and in-place buffer writes become returned values;
  the recursive driver returns `none` for the C sentinel `-1` (and for a
  failed `g_assert`, which aborts the process in C), and `some segs` for a
  non-negative segment count `segs.length`, the segments being laid out in
  the same order as the 4-point groups of the C output buffer.
* The unbounded C recursion is modelled with explicit fuel; the public
  wrapper passes fuel `2 * max_beziers + 2`, which dominates the real
  recursion depth (each frame does at most one tangent-dropping retry
  before a budget-consuming split).
-/

/-- 2D point, the embedding of `QPointF`. -/
abbrev Pt : Type := ℝ × ℝ

/-- Bezier segment / control polygon: a list of control points
(`QPointF bezier[]` in the source; cubic segments have 4 entries). -/
abbrev Seg : Type := List Pt

/-- Dot product of two points, `dot` in the source. -/
def dot (a b : Pt) : ℝ := a.1 * b.1 + a.2 * b.2

/-- Squared length, `lensq` in the source. -/
def lensq (p : Pt) : ℝ := dot p p

/-- Euclidean norm, `L2` (C `hypot`). -/
noncomputable def L2 (p : Pt) : ℝ := Real.sqrt (p.1 ^ 2 + p.2 ^ 2)

/-- The source's `unit_vector`: divide by the Euclidean magnitude. -/
noncomputable def unit_vector (p : Pt) : Pt :=
  let mag := Real.sqrt (p.1 * p.1 + p.2 * p.2)
  (p.1 / mag, p.2 / mag)

/-- Rotate 90 degrees, `rot90` in the source. -/
def rot90 (p : Pt) : Pt := (-p.2, p.1)

/-- Bernstein multiplier `B0`. -/
def B0 (u : ℝ) : ℝ := (1 - u) * (1 - u) * (1 - u)

/-- Bernstein multiplier `B1`. -/
def B1 (u : ℝ) : ℝ := 3 * u * (1 - u) * (1 - u)

/-- Bernstein multiplier `B2`. -/
def B2 (u : ℝ) : ℝ := 3 * u * u * (1 - u)

/-- Bernstein multiplier `B3`. -/
def B3 (u : ℝ) : ℝ := u * u * u

/-- Pascal's triangle table hard-coded in `bezier_pt` (rows 0..3). -/
def pascal : ℕ → ℕ → ℕ
  | 0, 0 => 1
  | 1, 0 => 1
  | 1, 1 => 1
  | 2, 0 => 1
  | 2, 1 => 2
  | 2, 2 => 1
  | 3, 0 => 1
  | 3, 1 => 3
  | 3, 2 => 3
  | 3, 3 => 1
  | _, _ => 0

/-- Evaluate a Bezier curve of the given degree at parameter `t`
(`bezier_pt` in the source): `ret = Σ pascal[deg][i]·s^(deg-i)·t^i·V[i]`
with `s = 1 - t`, exactly the sum the source's loop accumulates. -/
def bezier_pt (degree : ℕ) (V : List Pt) (t : ℝ) : Pt :=
  ((List.range (degree + 1)).map fun i =>
    ((pascal degree i : ℝ) * (1 - t) ^ (degree - i) * t ^ i) • V.getD i 0).sum

/-- Filter of `copy_without_nans_or_adjacent_duplicates`: `isNaN` on a real
number; the embedding has no NaN values, so this is identically `false`. -/
def isNaN (_ : ℝ) : Bool := false

/-- Second loop of `copy_without_nans_or_adjacent_duplicates`: keep a point
when it differs from the last kept point and is NaN-free. -/
noncomputable def dedupAdj : Pt → List Pt → List Pt
  | _, [] => []
  | prev, q :: qs =>
    if q ≠ prev ∧ ¬ isNaN q.1 ∧ ¬ isNaN q.2 then q :: dedupAdj q qs
    else dedupAdj prev qs

/-- The source's `copy_without_nans_or_adjacent_duplicates`: skip the NaN
prefix (empty in the real-number model), then drop NaN points and points
equal to the previously kept point. -/
noncomputable def copy_without_nans_or_adjacent_duplicates : List Pt → List Pt
  | [] => []
  | p :: rest =>
    if isNaN p.1 ∨ isNaN p.2 then copy_without_nans_or_adjacent_duplicates rest
    else p :: dedupAdj p rest

/-- First loop of `chord_length_parameterize`: the unnormalized parameters
`u[0] = 0`, `u[i] = u[i-1] + |d[i] - d[i-1]|` (a left scan of the
consecutive chord lengths). -/
noncomputable def chordRawU (d : List Pt) : List ℝ :=
  (List.zipWith (fun a b => L2 (b - a)) d d.tail).scanl (· + ·) 0

/-- The source's `chord_length_parameterize`.  Over the reals the total is
always finite, so the uniform-spacing overflow fallback is dead code; when
the total is zero the source returns before normalizing (the caller then
sees `u[len-1] == 0`).  The final write forces `u[len-1] = 1` exactly. -/
noncomputable def chord_length_parameterize (d : List Pt) : List ℝ :=
  let raw := chordRawU d
  let tot := raw.getD (d.length - 1) 0
  if tot = 0 then raw
  else (raw.map (· / tot)).set (d.length - 1) 1

/-- The source's `compute_hook`: distance from the curve point at the
midpoint parameter to the midpoint of `a` and `b`, scored against
`0.2·|b-a| + tolerance` when at least the tolerance. -/
noncomputable def compute_hook (a b : Pt) (u : ℝ) (bezCurve : Seg)
    (tolerance : ℝ) : ℝ :=
  let P := bezier_pt 3 bezCurve u
  let dist := L2 ((0.5 : ℝ) • (a + b) - P)
  if dist < tolerance then 0
  else dist / (L2 (b - a) * 0.2 + tolerance)

/-- Loop state of `compute_max_error_ratio`: running maximum squared
distance and its index, running maximum hook ratio and the index after the
worst hook, and the previously computed curve point. -/
structure CmerSt where
  maxDistsq : ℝ
  sp : ℕ
  maxHook : ℝ
  snapEnd : ℕ
  prev : Pt

/-- One iteration of the `compute_max_error_ratio` loop at index `i`. -/
noncomputable def cmerStep (d : List Pt) (u : List ℝ) (bezCurve : Seg)
    (tolerance : ℝ) (st : CmerSt) (i : ℕ) : CmerSt :=
  let curr := bezier_pt 3 bezCurve (u.getD i 0)
  let distsq := lensq (curr - d.getD i 0)
  let st1 : CmerSt :=
    if distsq > st.maxDistsq then
      { st with maxDistsq := distsq, sp := i }
    else st
  let hook := compute_hook st.prev curr (0.5 * (u.getD (i - 1) 0 + u.getD i 0))
      bezCurve tolerance
  let st2 : CmerSt :=
    if st1.maxHook < hook then
      { st1 with maxHook := hook, snapEnd := i }
    else st1
  { st2 with prev := curr }

/-- The source's `compute_max_error_ratio`.  Returns the signed error ratio
together with the split point (the C out-parameter `*splitPoint`; the
caller's variable is uninitialized, modelled as starting at 0).  The
`g_assert`s of the source are provable on every driver path (see
`compute_max_error_ratio_post`) and are modelled as no-ops. -/
noncomputable def compute_max_error_ratio (d : List Pt) (u : List ℝ)
    (bezCurve : Seg) (tolerance : ℝ) : ℝ × ℕ :=
  let last := d.length - 1
  let st := (List.range' 1 last).foldl (cmerStep d u bezCurve tolerance)
    ⟨0, 0, 0, 0, bezCurve.getD 0 0⟩
  let dist_ratio := Real.sqrt st.maxDistsq / tolerance
  if st.maxHook ≤ dist_ratio then (dist_ratio, st.sp)
  else (-st.maxHook, st.snapEnd - 1)

/-- The tolerance-free `sp_darray_left_tangent` (two-argument overload):
unit vector from `d[0]` toward `d[1]`. -/
noncomputable def sp_darray_left_tangent_simple (d : List Pt) : Pt :=
  unit_vector (d.getD 1 0 - d.getD 0 0)

/-- The tolerance-free `sp_darray_right_tangent` (two-argument overload):
unit vector from `d[len-1]` toward `d[len-2]`. -/
noncomputable def sp_darray_right_tangent_simple (d : List Pt) : Pt :=
  unit_vector (d.getD (d.length - 2) 0 - d.getD (d.length - 1) 0)

/-- Loop of the tolerance-taking `sp_darray_left_tangent`: scan forward
from index 1 for the first point farther than `tolerance_sq` from `d[0]`
(structural fuel stands for the loop counter reaching `len`). -/
noncomputable def leftTangentLoop (d : List Pt) (tolerance_sq : ℝ) :
    ℕ → ℕ → Pt
  | 0, _ => sp_darray_left_tangent_simple d
  | fuel + 1, i =>
    let t := d.getD i 0 - d.getD 0 0
    let distsq := dot t t
    if tolerance_sq < distsq then unit_vector t
    else if i + 1 = d.length then
      if distsq = 0 then sp_darray_left_tangent_simple d else unit_vector t
    else leftTangentLoop d tolerance_sq fuel (i + 1)

/-- The source's three-argument `sp_darray_left_tangent`. -/
noncomputable def sp_darray_left_tangent (d : List Pt)
    (tolerance_sq : ℝ) : Pt :=
  leftTangentLoop d tolerance_sq d.length 1

/-- Loop of the tolerance-taking `sp_darray_right_tangent`: scan backward
from index `len-2` for the first point farther than `tolerance_sq` from
`d[len-1]`. -/
noncomputable def rightTangentLoop (d : List Pt) (tolerance_sq : ℝ) :
    ℕ → ℕ → Pt
  | 0, _ => sp_darray_right_tangent_simple d
  | fuel + 1, i =>
    let t := d.getD i 0 - d.getD (d.length - 1) 0
    let distsq := dot t t
    if tolerance_sq < distsq then unit_vector t
    else if i = 0 then
      if distsq = 0 then sp_darray_right_tangent_simple d else unit_vector t
    else rightTangentLoop d tolerance_sq fuel (i - 1)

/-- The source's three-argument `sp_darray_right_tangent`. -/
noncomputable def sp_darray_right_tangent (d : List Pt)
    (tolerance_sq : ℝ) : Pt :=
  rightTangentLoop d tolerance_sq d.length (d.length - 2)

/-- The source's `sp_darray_center_tangent`: average of the two chords
adjacent to `d[center]`, or a 90-degree rotation when the neighbours
coincide; unit-normalized. -/
noncomputable def sp_darray_center_tangent (d : List Pt) (center : ℕ) : Pt :=
  if d.getD (center + 1) 0 = d.getD (center - 1) 0 then
    unit_vector (rot90 (d.getD center 0 - d.getD (center - 1) 0))
  else
    unit_vector (d.getD (center - 1) 0 - d.getD (center + 1) 0)

/-- Accumulator for the 2x2 least-squares system of `estimate_lengths`
(`C[1][0]` always mirrors `C[0][1]` in the source). -/
structure ELAcc where
  c00 : ℝ
  c01 : ℝ
  c11 : ℝ
  x0 : ℝ
  x1 : ℝ

/-- The source's `estimate_lengths`: accumulate the `C`/`X` system over the
data, solve for `alpha_l`, `alpha_r` by Cramer's rule with the source's
degenerate-system and Wu/Barsky fallbacks, and place the four control
points. -/
noncomputable def estimate_lengths (d : List Pt) (u : List ℝ)
    (tHat1 tHat2 : Pt) : Seg :=
  let len := d.length
  let bez0 : Pt := d.getD 0 0
  let bez3 : Pt := d.getD (len - 1) 0
  let A := (List.range len).foldl (fun (A : ELAcc) i =>
    let up := u.getD i 0
    let a1 := B1 up • tHat1
    let a2 := B2 up • tHat2
    let shortfall := d.getD i 0 - (B0 up + B1 up) • bez0
      - (B2 up + B3 up) • bez3
    ⟨A.c00 + dot a1 a1, A.c01 + dot a1 a2, A.c11 + dot a2 a2,
      A.x0 + dot a1 shortfall, A.x1 + dot a2 shortfall⟩)
    ⟨0, 0, 0, 0, 0⟩
  let det_C0_C1 := A.c00 * A.c11 - A.c01 * A.c01
  let alphas : ℝ × ℝ :=
    if det_C0_C1 ≠ 0 then
      let det_C0_X := A.c00 * A.x1 - A.c01 * A.x0
      let det_X_C1 := A.x0 * A.c11 - A.x1 * A.c01
      (det_X_C1 / det_C0_C1, det_C0_X / det_C0_C1)
    else
      let c0 := A.c00 + A.c01
      if c0 ≠ 0 then (A.x0 / c0, A.x0 / c0)
      else
        let c1 := A.c01 + A.c11
        if c1 ≠ 0 then (A.x1 / c1, A.x1 / c1)
        else (0, 0)
  let final : ℝ × ℝ :=
    if alphas.1 < 1e-6 ∨ alphas.2 < 1e-6 then
      let a := L2 (bez3 - bez0) * (1 / 3)
      (a, a)
    else alphas
  [bez0, final.1 • tHat1 + bez0, final.2 • tHat2 + bez3, bez3]

/-- The source's `estimate_bi`: closed-form single-unknown least-squares
for control point `bezier[ei]` (the source reads `bezier[0]` for the `oi`
coefficient term).  An out-of-range `ei` leaves the segment unchanged
(the `g_return_if_fail` early return). -/
noncomputable def estimate_bi (bez : Seg) (ei : ℕ) (d : List Pt)
    (u : List ℝ) : Seg :=
  if ¬ (1 ≤ ei ∧ ei ≤ 2) then bez
  else
    let oi := 3 - ei
    let acc := (List.range d.length).foldl (fun (A : Pt × ℝ) i =>
      let ui := u.getD i 0
      let b : List ℝ := [B0 ui, B1 ui, B2 ui, B3 ui]
      let s : Pt := (b.getD 0 0) • bez.getD 0 0 + (b.getD oi 0) • bez.getD 0 0
        + (b.getD 3 0) • bez.getD 3 0 - d.getD i 0
      (A.1 + (b.getD ei 0) • s, A.2 - (b.getD ei 0) * (b.getD ei 0)))
      (0, 0)
    if acc.2 ≠ 0 then
      bez.set ei (acc.1.1 / acc.2, acc.1.2 / acc.2)
    else
      bez.set ei (((1 : ℝ) / 3) • ((oi : ℝ) • bez.getD 0 0
        + (ei : ℝ) • bez.getD 3 0))

/-- The source's `generate_bezier`: estimate missing tangents, run the
two-unknown least-squares fit, and (when the left tangent was estimated)
refine `bezier[1]` with `estimate_bi` and re-run the fit with the
recomputed left tangent. -/
noncomputable def generate_bezier (d : List Pt) (u : List ℝ)
    (tHat1 tHat2 : Pt) (tolerance_sq : ℝ) : Seg :=
  let est1 := tHat1 = (0, 0)
  let est2 := tHat2 = (0, 0)
  let est_tHat1 := if est1 then sp_darray_left_tangent d tolerance_sq
    else tHat1
  let est_tHat2 := if est2 then sp_darray_right_tangent d tolerance_sq
    else tHat2
  let bez := estimate_lengths d u est_tHat1 est_tHat2
  if est1 then
    let bez2 := estimate_bi bez 1 d u
    let est_tHat1b :=
      if bez2.getD 1 0 ≠ bez2.getD 0 0 then
        unit_vector (bez2.getD 1 0 - bez2.getD 0 0)
      else est_tHat1
    estimate_lengths d u est_tHat1b est_tHat2
  else bez

/-- Finiteness test used by `NewtonRaphsonRootFind`; identically `true` in
the real-number model. -/
def isFiniteR (_ : ℝ) : Bool := true

/-- Safety loop at the end of `NewtonRaphsonRootFind`: while the improved
parameter is farther from `P` than the original was, blend it back toward
the original in steps of 1/8, reverting entirely once the proportion
exceeds 1.  `diffsq` is the squared distance at the original `u`.  Fuel 12
dominates the at most 9 iterations of the C loop; the fuel-exhausted case
returns the original `u` exactly as the proportion-exceeded revert does. -/
noncomputable def nrBlend (Q : Seg) (P : Pt) (uOrig diffsq : ℝ) :
    ℕ → ℝ → ℝ → ℝ
  | 0, _, _ => uOrig
  | fuel + 1, proportion, iu =>
    if lensq (bezier_pt 3 Q iu - P) > diffsq then
      if proportion > 1 then uOrig
      else nrBlend Q P uOrig diffsq fuel (proportion + 0.125)
        ((1 - proportion) * iu + proportion * uOrig)
    else iu

/-- The source's `NewtonRaphsonRootFind`: one Newton-Raphson step on the
derivative of the squared distance from `P` to the curve, with the
non-positive-denominator nudge, the clamp to `[0,1]`, and the safety
blending loop.  Over the reals `isFiniteR` is always `true`, so the
revert-on-non-finite branch is unreachable. -/
noncomputable def NewtonRaphsonRootFind (Q : Seg) (P : Pt) (u : ℝ) : ℝ :=
  let Q1 : Seg := [(3 : ℝ) • (Q.getD 1 0 - Q.getD 0 0),
    (3 : ℝ) • (Q.getD 2 0 - Q.getD 1 0),
    (3 : ℝ) • (Q.getD 3 0 - Q.getD 2 0)]
  let Q2 : Seg := [(2 : ℝ) • (Q1.getD 1 0 - Q1.getD 0 0),
    (2 : ℝ) • (Q1.getD 2 0 - Q1.getD 1 0)]
  let Q_u := bezier_pt 3 Q u
  let Q1_u := bezier_pt 2 Q1 u
  let Q2_u := bezier_pt 1 Q2 u
  let diff := Q_u - P
  let numer := dot diff Q1_u
  let denom := dot Q1_u Q1_u + dot diff Q2_u
  let improved_u0 :=
    if denom > 0 then u - numer / denom
    else if numer > 0 then u * 0.98 - 0.01
    else if numer < 0 then 0.031 + u * 0.98
    else u
  let improved_u :=
    if ¬ isFiniteR improved_u0 then u
    else if improved_u0 < 0 then 0
    else if improved_u0 > 1 then 1
    else improved_u0
  nrBlend Q P u (lensq diff) 12 0.125 improved_u

/-- The source's `reparameterize`: apply one Newton-Raphson refinement to
every interior parameter, leaving `u[0]` and `u[len-1]` untouched. -/
noncomputable def reparameterize (d : List Pt) (u : List ℝ)
    (bezCurve : Seg) : List ℝ :=
  (List.range d.length).map fun i =>
    if 1 ≤ i ∧ i < d.length - 1 then
      NewtonRaphsonRootFind bezCurve (d.getD i 0) (u.getD i 0)
    else u.getD i 0

/-- State carried between fitting attempts in `sp_bezier_fit_cubic_full`:
the current curve, parameters, error ratio and split point. -/
structure FitState where
  bez : Seg
  u : List ℝ
  errRatio : ℝ
  sp : ℕ

/-- One generate / reparameterize / evaluate attempt of the driver. -/
noncomputable def fitStep (d : List Pt) (u : List ℝ) (tHat1 tHat2 : Pt)
    (error tolerance : ℝ) : FitState :=
  let bez := generate_bezier d u tHat1 tHat2 error
  let u2 := reparameterize d u bez
  let rs := compute_max_error_ratio d u2 bez tolerance
  ⟨bez, u2, rs.1, rs.2⟩

/-- The driver's bounded iteration loop (`maxIterations = 4`): repeat the
generate / reparameterize / evaluate attempt, stopping early once the
absolute error ratio is within 1. -/
noncomputable def fitIters (d : List Pt) (tHat1 tHat2 : Pt)
    (error tolerance : ℝ) : ℕ → FitState → FitState
  | 0, s => s
  | n + 1, s =>
    let s2 := fitStep d s.u tHat1 tHat2 error tolerance
    if |s2.errRatio| ≤ 1 then s2
    else fitIters d tHat1 tHat2 error tolerance n s2

/-- Corner-index adjustment before splitting (`++splitPoint` /
`--splitPoint` in the source, reached only when the corresponding tangent
hint was already unconstrained). -/
noncomputable def driver_adjusted_split (errRatio : ℝ) (sp len : ℕ) : ℕ :=
  if errRatio < 0 ∧ sp = 0 then 1
  else if errRatio < 0 ∧ sp = len - 1 then len - 2
  else sp

/-- Decision logic of `sp_bezier_fit_cubic_full` after the fitting
attempts, on the final fit state `s`: accept, corner-retry with a dropped
tangent hint, or split at the (corner-adjusted) split point and recurse.
`rec` is the recursive call (the driver passes `fitFullF fuel`). -/
noncomputable def fitAfter
    (rec : List Pt → Pt → Pt → ℝ → ℕ → Option (List Seg))
    (data : List Pt) (tHat1 tHat2 : Pt) (error : ℝ) (max_beziers : ℕ)
    (s : FitState) : Option (List Seg) :=
  if |s.errRatio| ≤ 1 then some [s.bez]
  else
    if s.errRatio < 0 ∧ s.sp = 0 ∧ tHat1 ≠ (0, 0) then
      rec data (0, 0) tHat2 error max_beziers
    else if s.errRatio < 0 ∧ s.sp = data.length - 1 ∧ tHat2 ≠ (0, 0) then
      rec data tHat1 (0, 0) error max_beziers
    else
      let sp := driver_adjusted_split s.errRatio s.sp data.length
      if 1 < max_beziers then
        if s.errRatio < 0 ∧ ¬ (0 < sp ∧ sp < data.length - 1) then none
        else
          let recT : Pt × Pt :=
            if s.errRatio < 0 then ((0, 0), (0, 0))
            else
              let recTHat2 := sp_darray_center_tangent data sp
              (-recTHat2, recTHat2)
          (rec (data.take (sp + 1)) tHat1 recT.2 error
              (max_beziers - 1)).bind fun segs1 =>
            if segs1.length = 0 then none
            else (rec (data.drop sp) recT.1 tHat2 error
                (max_beziers - segs1.length)).bind fun segs2 =>
              some (segs1 ++ segs2)
      else none

/-- Fuel-indexed embedding of `sp_bezier_fit_cubic_full`.  `none` stands
for the C sentinel `-1` (and for an aborting `g_assert`); `some segs` for
segment count `segs.length` with the segments in buffer order.  The fuel
only bounds the recursion depth; `sp_bezier_fit_cubic_full` supplies fuel
dominating the true depth. -/
noncomputable def fitFullF : ℕ → List Pt → Pt → Pt → ℝ → ℕ →
    Option (List Seg)
  | 0, _, _, _, _, _ => none
  | fuel + 1, data, tHat1, tHat2, error, max_beziers =>
    if data.length = 0 then none
    else if max_beziers < 1 then none
    else if error < 0 then none
    else if data.length < 2 then some []
    else if data.length = 2 then
      -- two points are fitted trivially
      let b0 := data.getD 0 0
      let b3 := data.getD (data.length - 1) 0
      let dist := L2 (data.getD (data.length - 1) 0 - data.getD 0 0) * (1 / 3)
      if isNaN dist then some [[b0, b0, b3, b3]]
      else
        let b1 := if tHat1 = (0, 0) then
            ((1 : ℝ) / 3) • ((2 : ℝ) • b0 + b3)
          else b0 + dist • tHat1
        let b2 := if tHat2 = (0, 0) then
            ((1 : ℝ) / 3) • (b0 + (2 : ℝ) • b3)
          else b3 + dist • tHat2
        some [[b0, b1, b2, b3]]
    else
      let u0 := chord_length_parameterize data
      if u0.getD (data.length - 1) 0 = 0 then some []
      else
        let tolerance := Real.sqrt (error + 1e-9)
        let s0 := fitStep data u0 tHat1 tHat2 error tolerance
        if |s0.errRatio| ≤ 1 then some [s0.bez]
        else
          fitAfter (fitFullF fuel) data tHat1 tHat2 error max_beziers
            (if 0 ≤ s0.errRatio ∧ s0.errRatio ≤ 3 then
              fitIters data tHat1 tHat2 error tolerance 4 s0
            else s0)

/-- The source's `sp_bezier_fit_cubic_full`, with fuel dominating the real
recursion depth (each frame performs at most one tangent-dropping retry
before a budget-consuming split, so depth is below `2·max_beziers`). -/
noncomputable def sp_bezier_fit_cubic_full (data : List Pt)
    (tHat1 tHat2 : Pt) (error : ℝ) (max_beziers : ℕ) : Option (List Seg) :=
  fitFullF (2 * max_beziers + 2) data tHat1 tHat2 error max_beziers

/-- Budget limit checked by `sp_bezier_fit_cubic_r`:
`1ul << (31 - 2 - 1 - 3)`. -/
def fitBudgetLimit : ℕ := 1 <<< (31 - 2 - 1 - 3)

/-- The source's `sp_bezier_fit_cubic_r`: argument checks, NaN/duplicate
weedout, degenerate-input shortcut, then the recursive fitter with
unconstrained tangents.  Null-buffer checks have no counterpart for Lean
lists. -/
noncomputable def sp_bezier_fit_cubic_r (data : List Pt) (error : ℝ)
    (max_beziers : ℕ) : Option (List Seg) :=
  if data.length = 0 then none
  else if ¬ (max_beziers < fitBudgetLimit) then none
  else
    let uniqued_data := copy_without_nans_or_adjacent_duplicates data
    if uniqued_data.length < 2 then some []
    else sp_bezier_fit_cubic_full uniqued_data (0, 0) (0, 0) error max_beziers

/-- The source's `sp_bezier_fit_cubic`: single-segment entry point. -/
noncomputable def sp_bezier_fit_cubic (data : List Pt) (error : ℝ) :
    Option (List Seg) :=
  sp_bezier_fit_cubic_r data error 1

/-! ### Generic list access helpers -/

theorem getD_range_map {α : Type _} (f : ℕ → α) (n i : ℕ) (h : i < n)
    (x : α) : (((List.range n).map f).getD i x) = f i := by
  rw [List.getD_eq_getElem _ _ (by simpa using h)]
  simp

theorem fitBudgetLimit_eq : fitBudgetLimit = 2 ^ 25 := by
  simp [fitBudgetLimit, Nat.shiftLeft_eq]

theorem fitFullF_neg_error (fuel : ℕ) (d : List Pt) (t1 t2 : Pt) (e : ℝ)
    (mb : ℕ) (he : e < 0) : fitFullF (fuel + 1) d t1 t2 e mb = none := by
  by_cases h1 : d.length = 0
  · simp [fitFullF, h1]
  · by_cases h2 : mb < 1
    · simp [fitFullF, h1, h2]
    · rw [fitFullF]
      simp only [if_neg h1, if_neg h2, if_pos he]

theorem two_point_eval :
    sp_bezier_fit_cubic_full [((0 : ℝ), (0 : ℝ)), ((1 : ℝ), (1 : ℝ))]
      (0, 0) (0, 0) 0 1 =
      some [[((0 : ℝ), (0 : ℝ)), ((1 / 3 : ℝ), (1 / 3 : ℝ)),
        ((2 / 3 : ℝ), (2 / 3 : ℝ)), ((1 : ℝ), (1 : ℝ))]] := by
  show fitFullF 4 _ _ _ _ _ = _
  rw [show (4 : ℕ) = 3 + 1 from rfl, fitFullF]
  norm_num [isNaN, Prod.ext_iff, Prod.smul_mk, smul_eq_mul]

/-! ### C4: budget limit of `sp_bezier_fit_cubic_r` -/

theorem copy_without_pair (p q : Pt) (h : q ≠ p) :
    copy_without_nans_or_adjacent_duplicates [p, q] = [p, q] := by
  simp [copy_without_nans_or_adjacent_duplicates, dedupAdj, isNaN, h]

theorem fit_cubic_r_pair (p q : Pt) (h : q ≠ p) (e : ℝ) (mb : ℕ)
    (hb : mb < fitBudgetLimit) :
    sp_bezier_fit_cubic_r [p, q] e mb =
      sp_bezier_fit_cubic_full [p, q] (0, 0) (0, 0) e mb := by
  rw [sp_bezier_fit_cubic_r]
  simp only [copy_without_pair p q h]
  rw [if_neg (by simp), if_neg (not_not_intro hb), if_neg (by simp)]

/-- C4 counterexample: the claim says every `maxSegments` below `2^27`
passes the invalid-argument budget check, but the code's limit is
`1 << (31-2-1-3) = 2^25`: the value `2^25` (well below `2^27`) is rejected
with the negative sentinel even though the same call with budget 1
succeeds on the same input. -/
theorem c4_counterexample :
    (2 ^ 25 : ℕ) < 2 ^ 27 ∧
    sp_bezier_fit_cubic_r [((0 : ℝ), (0 : ℝ)), ((1 : ℝ), (1 : ℝ))] 0
      (2 ^ 25) = none ∧
    sp_bezier_fit_cubic_r [((0 : ℝ), (0 : ℝ)), ((1 : ℝ), (1 : ℝ))] 0 1 ≠
      none := by
  refine ⟨by norm_num, ?_, ?_⟩
  · have hb : ¬ ((2 ^ 25 : ℕ) < fitBudgetLimit) := by
      rw [fitBudgetLimit_eq]; omega
    rw [sp_bezier_fit_cubic_r, if_neg (by simp), if_pos hb]
  · have hb : (1 : ℕ) < fitBudgetLimit := by rw [fitBudgetLimit_eq]; norm_num
    have hne : ((1 : ℝ), (1 : ℝ)) ≠ ((0 : ℝ), (0 : ℝ)) := by
      simp [Prod.ext_iff]
    rw [fit_cubic_r_pair _ _ hne 0 1 hb, two_point_eval]
    simp

/-- C4 (amended): `sp_bezier_fit_cubic_r` is rejected by the budget check
exactly when `maxSegments` is at least `2^25 = 1 << (31-2-1-3)` — the
encoding limit in the code is `2^25`, not `2^27`; every budget at least
`2^25` makes the call fail with the negative sentinel. -/
theorem c4_budget_limit (mb : ℕ) :
    (mb < fitBudgetLimit ↔ mb < 2 ^ 25) ∧
    (2 ^ 25 ≤ mb → ∀ (d : List Pt) (e : ℝ),
      sp_bezier_fit_cubic_r d e mb = none) := by
  constructor
  · rw [fitBudgetLimit_eq]
  · intro h d e
    by_cases h1 : d.length = 0
    · simp [sp_bezier_fit_cubic_r, h1]
    · have hb : ¬ (mb < fitBudgetLimit) := by rw [fitBudgetLimit_eq]; omega
      simp [sp_bezier_fit_cubic_r, h1, hb]

/-- Witness for `c4_budget_limit` at `mb = 2^25`. -/
theorem c4_budget_limit_witness :
    (2 ^ 25 : ℕ) ≤ 2 ^ 25 ∧
    sp_bezier_fit_cubic_r [] 0 (2 ^ 25) = none :=
  ⟨le_refl _, (c4_budget_limit (2 ^ 25)).2 (le_refl _) [] 0⟩

/-! ### C5: negative tolerance handling of `sp_bezier_fit_cubic_r` -/

/-- C5 counterexample: a one-point input with negative tolerance does not
fail with the negative sentinel — the degenerate-input shortcut returns 0
segments before the tolerance is ever checked. -/
theorem c5_counterexample :
    sp_bezier_fit_cubic_r [((0 : ℝ), (0 : ℝ))] (-1) 1 = some [] ∧
    some ([] : List Seg) ≠ (none : Option (List Seg)) := by
  constructor
  · have hb : (1 : ℕ) < fitBudgetLimit := by rw [fitBudgetLimit_eq]; norm_num
    simp [sp_bezier_fit_cubic_r, hb, copy_without_nans_or_adjacent_duplicates,
      dedupAdj, isNaN]
  · simp

/-- C5 (amended): a call to `sp_bezier_fit_cubic_r` with non-empty input,
in-range budget and negative tolerance fails with the negative sentinel
provided the sanitized sequence retains at least 2 points; inputs that
sanitize to fewer than 2 points instead return 0 segments before the
tolerance check. -/
theorem c5_negative_tolerance (data : List Pt) (e : ℝ) (mb : ℕ)
    (hlen : data.length ≠ 0) (hb : mb < fitBudgetLimit)
    (h2 : 2 ≤ (copy_without_nans_or_adjacent_duplicates data).length)
    (he : e < 0) :
    sp_bezier_fit_cubic_r data e mb = none := by
  rw [sp_bezier_fit_cubic_r]
  simp only [if_neg hlen, not_lt.mpr, if_neg (not_not.mpr hb)]
  rw [if_neg (by omega), sp_bezier_fit_cubic_full,
    show 2 * mb + 2 = (2 * mb + 1) + 1 from rfl]
  exact fitFullF_neg_error _ _ _ _ _ _ he

/-- Witness for `c5_negative_tolerance` on a concrete two-point input. -/
theorem c5_negative_tolerance_witness :
    ([((0 : ℝ), (0 : ℝ)), ((1 : ℝ), (1 : ℝ))] : List Pt).length ≠ 0 ∧
    (1 : ℕ) < fitBudgetLimit ∧
    2 ≤ (copy_without_nans_or_adjacent_duplicates
      [((0 : ℝ), (0 : ℝ)), ((1 : ℝ), (1 : ℝ))]).length ∧
    (-1 : ℝ) < 0 ∧
    sp_bezier_fit_cubic_r [((0 : ℝ), (0 : ℝ)), ((1 : ℝ), (1 : ℝ))] (-1) 1 =
      none := by
  have hlen : ([((0 : ℝ), (0 : ℝ)), ((1 : ℝ), (1 : ℝ))] : List Pt).length ≠ 0 := by
    simp
  have hb : (1 : ℕ) < fitBudgetLimit := by rw [fitBudgetLimit_eq]; norm_num
  have hne : ((1 : ℝ), (1 : ℝ)) ≠ ((0 : ℝ), (0 : ℝ)) := by simp [Prod.ext_iff]
  have h2 : 2 ≤ (copy_without_nans_or_adjacent_duplicates
      [((0 : ℝ), (0 : ℝ)), ((1 : ℝ), (1 : ℝ))]).length := by
    simp [copy_without_nans_or_adjacent_duplicates, dedupAdj, isNaN, hne]
  exact ⟨hlen, hb, h2, by norm_num,
    c5_negative_tolerance _ _ _ hlen hb h2 (by norm_num)⟩

/-! ### C6: chord-length parameterization -/

theorem getD_set_ne (l : List ℝ) (n m : ℕ) (a : ℝ) (hne : n ≠ m) :
    (l.set n a).getD m 0 = l.getD m 0 := by
  by_cases h : m < l.length
  · rw [List.getD_eq_getElem _ _ (by simpa using h),
      List.getD_eq_getElem _ _ h]
    simp [List.getElem_set, hne]
  · rw [List.getD_eq_default _ _ (by simpa using not_lt.1 h),
      List.getD_eq_default _ _ (not_lt.1 h)]

theorem getD_set_self (l : List ℝ) (n : ℕ) (a : ℝ) (h : n < l.length) :
    (l.set n a).getD n 0 = a := by
  rw [List.getD_eq_getElem _ _ (by simpa using h)]
  simp [List.getElem_set]

theorem getD_map_div (l : List ℝ) (c : ℝ) (i : ℕ) :
    (l.map (· / c)).getD i 0 = l.getD i 0 / c := by
  by_cases h : i < l.length
  · rw [List.getD_eq_getElem _ _ (by simpa using h),
      List.getD_eq_getElem _ _ h]
    simp
  · rw [List.getD_eq_default _ _ (by simpa using not_lt.1 h),
      List.getD_eq_default _ _ (not_lt.1 h), zero_div]

theorem scanl_add_getD (l : List ℝ) : ∀ (a : ℝ) (i : ℕ), i ≤ l.length →
    (l.scanl (· + ·) a).getD i 0 = a + (l.take i).sum := by
  induction l with
  | nil =>
    intro a i h
    have hi : i = 0 := by simpa using h
    subst hi
    simp [List.scanl_nil]
  | cons x xs ih =>
    intro a i h
    rw [List.scanl_cons, List.singleton_append]
    cases i with
    | zero => simp
    | succ j =>
      rw [List.getD_cons_succ, ih (a + x) j (by simpa using h),
        List.take_succ_cons, List.sum_cons]
      ring

theorem chordDists_nonneg (l : List Pt) : ∀ l' : List Pt,
    ∀ x ∈ List.zipWith (fun a b => L2 (b - a)) l l', 0 ≤ x := by
  induction l with
  | nil => simp
  | cons p ps ih =>
    intro l' x hx
    cases l' with
    | nil => simp at hx
    | cons q qs =>
      rcases (List.mem_cons).1 hx with h | h
      · rw [h]; exact Real.sqrt_nonneg _
      · exact ih qs x h

theorem chordRawU_length (d : List Pt) (h : 1 ≤ d.length) :
    (chordRawU d).length = d.length := by
  rw [chordRawU, List.length_scanl, List.length_zipWith, List.length_tail]
  omega

theorem chordRawU_getD (d : List Pt) (i : ℕ) (h : i ≤ d.length - 1) :
    (chordRawU d).getD i 0 =
      ((List.zipWith (fun a b => L2 (b - a)) d d.tail).take i).sum := by
  rw [chordRawU, scanl_add_getD _ _ _
    (by rw [List.length_zipWith, List.length_tail]; omega), zero_add]

theorem chordRawU_mono (d : List Pt) (j : ℕ) (h : j + 1 ≤ d.length - 1) :
    (chordRawU d).getD j 0 ≤ (chordRawU d).getD (j + 1) 0 := by
  rw [chordRawU_getD d j (by omega), chordRawU_getD d (j + 1) h]
  have hlen : j < (List.zipWith (fun a b => L2 (b - a)) d d.tail).length := by
    rw [List.length_zipWith, List.length_tail]; omega
  rw [List.take_succ, List.sum_append, List.getElem?_eq_getElem hlen]
  have h0 : 0 ≤ (List.zipWith (fun a b => L2 (b - a)) d d.tail)[j] :=
    chordDists_nonneg d d.tail _ (List.getElem_mem hlen)
  simpa using h0

/-- C6: for input of length at least 2 with positive total chord length
(finiteness is automatic over the reals), `chord_length_parameterize`
yields `u[0] = 0`, `u[len-1] = 1` exactly, and non-decreasing values. -/
theorem c6_chord_length_parameterize (d : List Pt) (hlen : 2 ≤ d.length)
    (htot : 0 < (chordRawU d).getD (d.length - 1) 0) :
    (chord_length_parameterize d).getD 0 0 = 0 ∧
    (chord_length_parameterize d).getD (d.length - 1) 0 = 1 ∧
    ∀ i, 1 ≤ i → i ≤ d.length - 1 →
      (chord_length_parameterize d).getD (i - 1) 0 ≤
        (chord_length_parameterize d).getD i 0 := by
  have htne : (chordRawU d).getD (d.length - 1) 0 ≠ 0 := ne_of_gt htot
  simp only [chord_length_parameterize, if_neg htne]
  set tot := (chordRawU d).getD (d.length - 1) 0 with htotdef
  have hmlen : ((chordRawU d).map (· / tot)).length = d.length := by
    rw [List.length_map, chordRawU_length d (by omega)]
  refine ⟨?_, ?_, ?_⟩
  · rw [getD_set_ne _ _ _ _ (by omega), getD_map_div,
      chordRawU_getD d 0 (by omega)]
    simp
  · rw [getD_set_self _ _ _ (by omega)]
  · intro i h1 h2
    by_cases hi : i = d.length - 1
    · subst hi
      rw [getD_set_self _ _ _ (by omega),
        getD_set_ne _ _ _ _ (by omega), getD_map_div]
      rw [div_le_one htot]
      have := chordRawU_mono d (d.length - 1 - 1) (by omega)
      have he : d.length - 1 - 1 + 1 = d.length - 1 := by omega
      rw [he] at this
      exact this
    · rw [getD_set_ne _ _ _ _ (by omega), getD_set_ne _ _ _ _ (by omega),
        getD_map_div, getD_map_div]
      have := chordRawU_mono d (i - 1) (by omega)
      have he : i - 1 + 1 = i := by omega
      rw [he] at this
      gcongr

/-- Witness for `c6_chord_length_parameterize` on the two-point input
`[(0,0), (3,4)]`, whose total chord length is 5. -/
theorem c6_chord_length_parameterize_witness :
    2 ≤ ([((0 : ℝ), (0 : ℝ)), ((3 : ℝ), (4 : ℝ))] : List Pt).length ∧
    0 < (chordRawU [((0 : ℝ), (0 : ℝ)), ((3 : ℝ), (4 : ℝ))]).getD
      (([((0 : ℝ), (0 : ℝ)), ((3 : ℝ), (4 : ℝ))] : List Pt).length - 1) 0 ∧
    (chord_length_parameterize
      [((0 : ℝ), (0 : ℝ)), ((3 : ℝ), (4 : ℝ))]).getD 0 0 = 0 := by
  have hlen : 2 ≤ ([((0 : ℝ), (0 : ℝ)), ((3 : ℝ), (4 : ℝ))] : List Pt).length := by
    simp
  have hL2 : L2 (((3 : ℝ), (4 : ℝ)) - ((0 : ℝ), (0 : ℝ))) = 5 := by
    rw [L2]
    norm_num [Prod.ext_iff]
    rw [show (25 : ℝ) = 5 ^ 2 by norm_num, Real.sqrt_sq (by norm_num)]
  have htot : 0 < (chordRawU [((0 : ℝ), (0 : ℝ)), ((3 : ℝ), (4 : ℝ))]).getD
      (([((0 : ℝ), (0 : ℝ)), ((3 : ℝ), (4 : ℝ))] : List Pt).length - 1) 0 := by
    rw [chordRawU]
    simp only [List.tail_cons, List.zipWith_cons_cons, List.zipWith_nil_right,
      List.scanl_cons, List.scanl_nil, List.length_cons, List.length_nil]
    rw [hL2]
    norm_num
  exact ⟨hlen, htot,
    (c6_chord_length_parameterize _ hlen htot).1⟩

/-! ### C7: Newton-Raphson refinement -/

theorem nrBlend_bounds (Q : Seg) (P : Pt) (uOrig diffsq : ℝ)
    (hd : diffsq = lensq (bezier_pt 3 Q uOrig - P))
    (h0 : 0 ≤ uOrig) (h1 : uOrig ≤ 1) :
    ∀ (fuel : ℕ) (prop iu : ℝ), 0 ≤ prop → 0 ≤ iu → iu ≤ 1 →
      0 ≤ nrBlend Q P uOrig diffsq fuel prop iu ∧
      nrBlend Q P uOrig diffsq fuel prop iu ≤ 1 ∧
      lensq (bezier_pt 3 Q (nrBlend Q P uOrig diffsq fuel prop iu) - P) ≤
        diffsq := by
  intro fuel
  induction fuel with
  | zero =>
    intro prop iu _ _ _
    refine ⟨h0, h1, ?_⟩
    rw [nrBlend, hd]
  | succ f ih =>
    intro prop iu hp hiu0 hiu1
    rw [nrBlend]
    split_ifs with hworse hpr
    · exact ⟨h0, h1, by rw [hd]⟩
    · have hple : prop ≤ 1 := not_lt.1 hpr
      have hm1 : 0 ≤ (1 - prop) * iu :=
        mul_nonneg (by linarith) hiu0
      have hm2 : 0 ≤ prop * uOrig := mul_nonneg hp h0
      have hm3 : (1 - prop) * iu ≤ (1 - prop) * 1 :=
        mul_le_mul_of_nonneg_left hiu1 (by linarith)
      have hm4 : prop * uOrig ≤ prop * 1 :=
        mul_le_mul_of_nonneg_left h1 hp
      exact ih (prop + 0.125) ((1 - prop) * iu + prop * uOrig)
        (by linarith) (by linarith) (by nlinarith)
    · exact ⟨hiu0, hiu1, not_lt.1 hworse⟩

/-- C7: `NewtonRaphsonRootFind` returns a parameter in `[0,1]` whose
squared distance to the digitized point is no larger than at the input
parameter.  (The claim's non-finite-step clause is vacuous in the
real-number embedding, where `isFiniteR` is identically true.) -/
theorem c7_newton_raphson (Q : Seg) (P : Pt) (u : ℝ)
    (h0 : 0 ≤ u) (h1 : u ≤ 1) :
    0 ≤ NewtonRaphsonRootFind Q P u ∧ NewtonRaphsonRootFind Q P u ≤ 1 ∧
    lensq (bezier_pt 3 Q (NewtonRaphsonRootFind Q P u) - P) ≤
      lensq (bezier_pt 3 Q u - P) := by
  simp only [NewtonRaphsonRootFind, isFiniteR, not_true, if_false,
    Bool.not_true]
  apply nrBlend_bounds Q P u _ rfl h0 h1 12
  · norm_num
  · split_ifs <;> linarith
  · split_ifs <;> linarith

/-- Witness for `c7_newton_raphson` at `u = 1/2` on a concrete curve. -/
theorem c7_newton_raphson_witness :
    (0 : ℝ) ≤ 1 / 2 ∧ (1 / 2 : ℝ) ≤ 1 ∧
    0 ≤ NewtonRaphsonRootFind
      [((0 : ℝ), (0 : ℝ)), ((1 : ℝ), (0 : ℝ)), ((2 : ℝ), (0 : ℝ)),
        ((3 : ℝ), (0 : ℝ))] ((1 : ℝ), (1 : ℝ)) (1 / 2) := by
  refine ⟨by norm_num, by norm_num, ?_⟩
  exact (c7_newton_raphson _ _ _ (by norm_num) (by norm_num)).1

/-! ### Evaluation of `bezier_pt` at the parameter endpoints -/

theorem bezier_pt_zero (V : List Pt) : bezier_pt 3 V 0 = V.getD 0 0 := by
  rw [bezier_pt, show List.range 4 = [0, 1, 2, 3] from rfl]
  simp [pascal]

theorem bezier_pt_one (V : List Pt) : bezier_pt 3 V 1 = V.getD 3 0 := by
  rw [bezier_pt, show List.range 4 = [0, 1, 2, 3] from rfl]
  simp [pascal]

/-! ### C10: postcondition of `compute_max_error_ratio` -/

/-- Invariant maintained by the error-evaluation loop: accumulated maxima
are non-negative, and whenever one is positive its recorded index is in
range (with the max-distance index strictly before `last`). -/
def CmerInv (last : ℕ) (st : CmerSt) : Prop :=
  0 ≤ st.maxDistsq ∧ 0 ≤ st.maxHook ∧
  (st.maxDistsq = 0 ∨ (0 < st.maxDistsq ∧ 1 ≤ st.sp ∧ st.sp < last)) ∧
  (st.maxHook = 0 ∨ (0 < st.maxHook ∧ 1 ≤ st.snapEnd ∧ st.snapEnd ≤ last))

theorem cmerHookUpdate_inv (last i : ℕ) (hook : ℝ) (st : CmerSt)
    (hi1 : 1 ≤ i) (hi2 : i ≤ last) (hinv : CmerInv last st) :
    CmerInv last (if st.maxHook < hook then
      { st with maxHook := hook, snapEnd := i } else st) := by
  obtain ⟨hD, hH, hDsp, hHsnap⟩ := hinv
  split_ifs with h
  · exact ⟨hD, by linarith, hDsp, Or.inr ⟨by linarith, hi1, hi2⟩⟩
  · exact ⟨hD, hH, hDsp, hHsnap⟩

theorem cmerDistUpdate_inv (last i : ℕ) (distsq : ℝ) (st : CmerSt)
    (hi1 : 1 ≤ i) (hilt : distsq > st.maxDistsq → i < last)
    (hinv : CmerInv last st) :
    CmerInv last (if distsq > st.maxDistsq then
      { st with maxDistsq := distsq, sp := i } else st) := by
  obtain ⟨hD, hH, hDsp, hHsnap⟩ := hinv
  split_ifs with h
  · exact ⟨by linarith, hH, Or.inr ⟨by linarith, hi1, hilt h⟩, hHsnap⟩
  · exact ⟨hD, hH, hDsp, hHsnap⟩

theorem cmerPrev_inv (last : ℕ) (p : Pt) (st : CmerSt)
    (hinv : CmerInv last st) : CmerInv last { st with prev := p } := hinv

theorem cmerStep_inv (d : List Pt) (u : List ℝ) (bez : Seg) (tol : ℝ)
    (last i : ℕ) (st : CmerSt)
    (hlast : lensq (bezier_pt 3 bez (u.getD last 0) - d.getD last 0) = 0)
    (hi1 : 1 ≤ i) (hi2 : i ≤ last) (hinv : CmerInv last st) :
    CmerInv last (cmerStep d u bez tol st i) := by
  have hilt : lensq (bezier_pt 3 bez (u.getD i 0) - d.getD i 0) >
      st.maxDistsq → i < last := by
    intro h1
    rcases Nat.lt_or_ge i last with h | h
    · exact h
    · have hie : i = last := by omega
      rw [hie, hlast] at h1
      exact absurd h1 (not_lt.mpr hinv.1)
  exact cmerPrev_inv last _ _ (cmerHookUpdate_inv last i _ _ hi1 hi2
    (cmerDistUpdate_inv last i _ st hi1 hilt hinv))

theorem cmer_foldl_inv (d : List Pt) (u : List ℝ) (bez : Seg) (tol : ℝ)
    (last : ℕ)
    (hlast : lensq (bezier_pt 3 bez (u.getD last 0) - d.getD last 0) = 0) :
    ∀ (l : List ℕ) (st : CmerSt), (∀ i ∈ l, 1 ≤ i ∧ i ≤ last) →
      CmerInv last st →
      CmerInv last (l.foldl (cmerStep d u bez tol) st) := by
  intro l
  induction l with
  | nil => intro st _ h; simpa using h
  | cons x xs ih =>
    intro st hmem hinv
    rw [List.foldl_cons]
    refine ih _ (fun i hi => hmem i (List.mem_cons_of_mem x hi)) ?_
    have hx := hmem x (List.mem_cons_self x xs)
    exact cmerStep_inv d u bez tol last x st hlast hx.1 hx.2 hinv

/-- The loop of `compute_max_error_ratio`, named for reasoning. -/
noncomputable def cmerFold (d : List Pt) (u : List ℝ) (bez : Seg)
    (tol : ℝ) : CmerSt :=
  (List.range' 1 (d.length - 1)).foldl (cmerStep d u bez tol)
    ⟨0, 0, 0, 0, bez.getD 0 0⟩

theorem compute_max_error_ratio_eq (d : List Pt) (u : List ℝ) (bez : Seg)
    (tol : ℝ) :
    compute_max_error_ratio d u bez tol =
      if (cmerFold d u bez tol).maxHook ≤
          Real.sqrt (cmerFold d u bez tol).maxDistsq / tol
      then (Real.sqrt (cmerFold d u bez tol).maxDistsq / tol,
        (cmerFold d u bez tol).sp)
      else (-(cmerFold d u bez tol).maxHook,
        (cmerFold d u bez tol).snapEnd - 1) := rfl

/-- Postcondition of `compute_max_error_ratio` (the source's final
`g_assert`): either the returned ratio is zero, or the returned split
point is strictly before the last index and is nonzero unless the ratio
is negative. -/
theorem compute_max_error_ratio_post (d : List Pt) (u : List ℝ)
    (bez : Seg) (tol : ℝ) (hlen : 2 ≤ d.length)
    (hulast : u.getD (d.length - 1) 0 = 1)
    (hbez3 : bez.getD 3 0 = d.getD (d.length - 1) 0) :
    (compute_max_error_ratio d u bez tol).1 = 0 ∨
    ((compute_max_error_ratio d u bez tol).2 < d.length - 1 ∧
     ((compute_max_error_ratio d u bez tol).2 ≠ 0 ∨
      (compute_max_error_ratio d u bez tol).1 < 0)) := by
  have hlast0 : lensq (bezier_pt 3 bez (u.getD (d.length - 1) 0)
      - d.getD (d.length - 1) 0) = 0 := by
    rw [hulast, bezier_pt_one, hbez3]
    simp [lensq, dot]
  have hinv : CmerInv (d.length - 1) (cmerFold d u bez tol) := by
    rw [cmerFold]
    exact cmer_foldl_inv d u bez tol (d.length - 1) hlast0 _ _
      (fun i hi => by
        have := List.mem_range'_1.1 hi
        omega)
      ⟨le_refl 0, le_refl 0, Or.inl rfl, Or.inl rfl⟩
  obtain ⟨hD, hH, hDsp, hHsnap⟩ := hinv
  have hlast1 : 1 ≤ d.length - 1 := by omega
  rw [compute_max_error_ratio_eq]
  split_ifs with hcase
  · rcases hDsp with h | h
    · left
      simp [h]
    · right
      refine ⟨by simpa using h.2.2, Or.inl ?_⟩
      have h21 := h.2.1
      simp only
      omega
  · rcases hHsnap with h | h
    · left
      simp [h]
    · right
      have h21 := h.2.1
      have h22 := h.2.2
      refine ⟨by simp only; omega, Or.inr ?_⟩
      simp only
      linarith [h.1]

/-- C10: the error evaluator's implicit contract — either the ratio is 0,
or the split point is strictly before the last index and (unless the
ratio is negative) nonzero; moreover, on a range of at least 3 points
where the driver splits (absolute ratio above 1), the corner-adjusted
split point leaves both sub-ranges with at least 2 points each. -/
theorem c10_split_ranges (d : List Pt) (u : List ℝ) (bez : Seg) (tol : ℝ)
    (hlen : 2 ≤ d.length) (hulast : u.getD (d.length - 1) 0 = 1)
    (hbez3 : bez.getD 3 0 = d.getD (d.length - 1) 0) :
    ((compute_max_error_ratio d u bez tol).1 = 0 ∨
     ((compute_max_error_ratio d u bez tol).2 < d.length - 1 ∧
      ((compute_max_error_ratio d u bez tol).2 ≠ 0 ∨
       (compute_max_error_ratio d u bez tol).1 < 0))) ∧
    (3 ≤ d.length → 1 < |(compute_max_error_ratio d u bez tol).1| →
      2 ≤ (d.take (driver_adjusted_split
          (compute_max_error_ratio d u bez tol).1
          (compute_max_error_ratio d u bez tol).2 d.length + 1)).length ∧
      2 ≤ (d.drop (driver_adjusted_split
          (compute_max_error_ratio d u bez tol).1
          (compute_max_error_ratio d u bez tol).2 d.length)).length) := by
  have hpost := compute_max_error_ratio_post d u bez tol hlen hulast hbez3
  refine ⟨hpost, ?_⟩
  intro h3 habs
  set r := (compute_max_error_ratio d u bez tol).1 with hr
  set sp := (compute_max_error_ratio d u bez tol).2 with hsp
  have hrne : r ≠ 0 := by
    intro h
    rw [h] at habs
    simp at habs
    linarith
  have hb : sp < d.length - 1 ∧ (sp ≠ 0 ∨ r < 0) := hpost.resolve_left hrne
  have hbound : 1 ≤ driver_adjusted_split r sp d.length ∧
      driver_adjusted_split r sp d.length ≤ d.length - 2 := by
    rw [driver_adjusted_split]
    split_ifs with h1 h2
    · omega
    · omega
    · -- no corner adjustment: sp itself
      have hsp0 : sp ≠ 0 := by
        rcases hb.2 with h | h
        · exact h
        · intro h0
          exact h1 ⟨h, h0⟩
      omega
  rw [List.length_take, List.length_drop]
  omega

/-- Witness for `c10_split_ranges` on concrete two-point data. -/
theorem c10_split_ranges_witness :
    (2 ≤ ([((0 : ℝ), (0 : ℝ)), ((1 : ℝ), (0 : ℝ))] : List Pt).length) ∧
    (([(0 : ℝ), (1 : ℝ)] : List ℝ).getD
      (([((0 : ℝ), (0 : ℝ)), ((1 : ℝ), (0 : ℝ))] : List Pt).length - 1) 0 = 1) ∧
    (([((0 : ℝ), (0 : ℝ)), ((0 : ℝ), (0 : ℝ)), ((1 : ℝ), (0 : ℝ)),
        ((1 : ℝ), (0 : ℝ))] : Seg).getD 3 0 =
      ([((0 : ℝ), (0 : ℝ)), ((1 : ℝ), (0 : ℝ))] : List Pt).getD
        (([((0 : ℝ), (0 : ℝ)), ((1 : ℝ), (0 : ℝ))] : List Pt).length - 1) 0) ∧
    ((compute_max_error_ratio [((0 : ℝ), (0 : ℝ)), ((1 : ℝ), (0 : ℝ))]
        [(0 : ℝ), (1 : ℝ)]
        [((0 : ℝ), (0 : ℝ)), ((0 : ℝ), (0 : ℝ)), ((1 : ℝ), (0 : ℝ)),
          ((1 : ℝ), (0 : ℝ))] 1).1 = 0 ∨
     ((compute_max_error_ratio [((0 : ℝ), (0 : ℝ)), ((1 : ℝ), (0 : ℝ))]
        [(0 : ℝ), (1 : ℝ)]
        [((0 : ℝ), (0 : ℝ)), ((0 : ℝ), (0 : ℝ)), ((1 : ℝ), (0 : ℝ)),
          ((1 : ℝ), (0 : ℝ))] 1).2 <
        ([((0 : ℝ), (0 : ℝ)), ((1 : ℝ), (0 : ℝ))] : List Pt).length - 1 ∧
      ((compute_max_error_ratio [((0 : ℝ), (0 : ℝ)), ((1 : ℝ), (0 : ℝ))]
        [(0 : ℝ), (1 : ℝ)]
        [((0 : ℝ), (0 : ℝ)), ((0 : ℝ), (0 : ℝ)), ((1 : ℝ), (0 : ℝ)),
          ((1 : ℝ), (0 : ℝ))] 1).2 ≠ 0 ∨
       (compute_max_error_ratio [((0 : ℝ), (0 : ℝ)), ((1 : ℝ), (0 : ℝ))]
        [(0 : ℝ), (1 : ℝ)]
        [((0 : ℝ), (0 : ℝ)), ((0 : ℝ), (0 : ℝ)), ((1 : ℝ), (0 : ℝ)),
          ((1 : ℝ), (0 : ℝ))] 1).1 < 0))) := by
  have h1 : 2 ≤ ([((0 : ℝ), (0 : ℝ)), ((1 : ℝ), (0 : ℝ))] : List Pt).length := by
    simp
  have h2 : (([(0 : ℝ), (1 : ℝ)] : List ℝ).getD
      (([((0 : ℝ), (0 : ℝ)), ((1 : ℝ), (0 : ℝ))] : List Pt).length - 1) 0 = 1) := by
    simp
  have h3 : (([((0 : ℝ), (0 : ℝ)), ((0 : ℝ), (0 : ℝ)), ((1 : ℝ), (0 : ℝ)),
        ((1 : ℝ), (0 : ℝ))] : Seg).getD 3 0 =
      ([((0 : ℝ), (0 : ℝ)), ((1 : ℝ), (0 : ℝ))] : List Pt).getD
        (([((0 : ℝ), (0 : ℝ)), ((1 : ℝ), (0 : ℝ))] : List Pt).length - 1) 0) := by
    simp
  exact ⟨h1, h2, h3, (c10_split_ranges _ _ _ _ h1 h2 h3).1⟩

/-! ### C3: what the hook ratio is computed from -/

/-- Hook ratio as claim C3 words it: curve at the midpoint parameter,
compared against the midpoint of the two DATA points, scored against an
allowance from the data chord when strictly above the tolerance. -/
noncomputable def hook_claimed (d : List Pt) (u : List ℝ) (bez : Seg)
    (tol : ℝ) (i : ℕ) : ℝ :=
  let P := bezier_pt 3 bez (0.5 * (u.getD (i - 1) 0 + u.getD i 0))
  let dist := L2 ((0.5 : ℝ) • (d.getD (i - 1) 0 + d.getD i 0) - P)
  if dist > tol then dist / (L2 (d.getD i 0 - d.getD (i - 1) 0) * 0.2 + tol)
  else 0

/-- Error evaluator as claim C3 describes it: identical to
`compute_max_error_ratio` except that each pair's hook is
`hook_claimed`. -/
noncomputable def cmerStep_claimed (d : List Pt) (u : List ℝ) (bez : Seg)
    (tol : ℝ) (st : CmerSt) (i : ℕ) : CmerSt :=
  let curr := bezier_pt 3 bez (u.getD i 0)
  let distsq := lensq (curr - d.getD i 0)
  let st1 : CmerSt :=
    if distsq > st.maxDistsq then
      { st with maxDistsq := distsq, sp := i }
    else st
  let hook := hook_claimed d u bez tol i
  let st2 : CmerSt :=
    if st1.maxHook < hook then
      { st1 with maxHook := hook, snapEnd := i }
    else st1
  { st2 with prev := curr }

/-- The claim-C3 version of `compute_max_error_ratio`. -/
noncomputable def compute_max_error_ratio_claimed (d : List Pt)
    (u : List ℝ) (bez : Seg) (tol : ℝ) : ℝ × ℕ :=
  let st := (List.range' 1 (d.length - 1)).foldl
    (cmerStep_claimed d u bez tol) ⟨0, 0, 0, 0, bez.getD 0 0⟩
  let dist_ratio := Real.sqrt st.maxDistsq / tol
  if st.maxHook ≤ dist_ratio then (dist_ratio, st.sp)
  else (-st.maxHook, st.snapEnd - 1)

/-- Hook ratio as the code actually computes it, written out: both chain
points are the fitted curve evaluated at the two consecutive parameters,
and the ratio fires when the distance is at least (not strictly above)
the tolerance. -/
noncomputable def hook_curvepoints (u : List ℝ) (bez : Seg) (tol : ℝ)
    (i : ℕ) : ℝ :=
  let a := bezier_pt 3 bez (u.getD (i - 1) 0)
  let b := bezier_pt 3 bez (u.getD i 0)
  let P := bezier_pt 3 bez (0.5 * (u.getD (i - 1) 0 + u.getD i 0))
  let dist := L2 ((0.5 : ℝ) • (a + b) - P)
  if dist < tol then 0
  else dist / (L2 (b - a) * 0.2 + tol)

/-- Amended-claim error evaluator: hooks from the curve points at
consecutive parameters. -/
noncomputable def cmerStep_amended (d : List Pt) (u : List ℝ) (bez : Seg)
    (tol : ℝ) (st : CmerSt) (i : ℕ) : CmerSt :=
  let curr := bezier_pt 3 bez (u.getD i 0)
  let distsq := lensq (curr - d.getD i 0)
  let st1 : CmerSt :=
    if distsq > st.maxDistsq then
      { st with maxDistsq := distsq, sp := i }
    else st
  let hook := hook_curvepoints u bez tol i
  let st2 : CmerSt :=
    if st1.maxHook < hook then
      { st1 with maxHook := hook, snapEnd := i }
    else st1
  { st2 with prev := curr }

/-- The amended-claim version of `compute_max_error_ratio`. -/
noncomputable def compute_max_error_ratio_amended (d : List Pt)
    (u : List ℝ) (bez : Seg) (tol : ℝ) : ℝ × ℕ :=
  let st := (List.range' 1 (d.length - 1)).foldl
    (cmerStep_amended d u bez tol) ⟨0, 0, 0, 0, bez.getD 0 0⟩
  let dist_ratio := Real.sqrt st.maxDistsq / tol
  if st.maxHook ≤ dist_ratio then (dist_ratio, st.sp)
  else (-st.maxHook, st.snapEnd - 1)

theorem cmer_amended_fold (d : List Pt) (u : List ℝ) (bez : Seg)
    (tol : ℝ) : ∀ (n s : ℕ) (st : CmerSt),
    st.prev = bezier_pt 3 bez (u.getD (s - 1) 0) → 1 ≤ s →
    (List.range' s n).foldl (cmerStep d u bez tol) st =
      (List.range' s n).foldl (cmerStep_amended d u bez tol) st := by
  intro n
  induction n with
  | zero => intro s st _ _; rfl
  | succ m ih =>
    intro s st hprev hs
    rw [List.range'_succ, List.foldl_cons, List.foldl_cons]
    have hstep : cmerStep d u bez tol st s =
        cmerStep_amended d u bez tol st s := by
      simp only [cmerStep, cmerStep_amended, compute_hook, hook_curvepoints,
        hprev]
    rw [hstep]
    apply ih (s + 1)
    · show (cmerStep_amended d u bez tol st s).prev = _
      simp only [cmerStep_amended, Nat.add_sub_cancel]
    · omega

/-- C3 (amended): the hook ratio for pair `i` is computed from the fitted
curve evaluated at `u[i-1]` and `u[i]` — not from the data points — and
fires when the midpoint distance is at least (not strictly above) the
tolerance.  The code's evaluator agrees with this formulation whenever
`u[0] = 0`. -/
theorem c3_hook_from_curve (d : List Pt) (u : List ℝ) (bez : Seg)
    (tol : ℝ) (hu0 : u.getD 0 0 = 0) :
    compute_max_error_ratio d u bez tol =
      compute_max_error_ratio_amended d u bez tol := by
  have hfold : (List.range' 1 (d.length - 1)).foldl (cmerStep d u bez tol)
      ⟨0, 0, 0, 0, bez.getD 0 0⟩ =
      (List.range' 1 (d.length - 1)).foldl (cmerStep_amended d u bez tol)
      ⟨0, 0, 0, 0, bez.getD 0 0⟩ := by
    apply cmer_amended_fold
    · show bez.getD 0 0 = _
      rw [Nat.sub_self, hu0, bezier_pt_zero]
    · exact le_refl 1
  simp only [compute_max_error_ratio, compute_max_error_ratio_amended,
    hfold]

/-- Witness for `c3_hook_from_curve` on a concrete input with
`u[0] = 0`. -/
theorem c3_hook_from_curve_witness :
    (([(0 : ℝ), (1 : ℝ)] : List ℝ).getD 0 0 = 0) ∧
    compute_max_error_ratio [((0 : ℝ), (0 : ℝ)), ((1 : ℝ), (0 : ℝ))]
        [(0 : ℝ), (1 : ℝ)]
        [((0 : ℝ), (0 : ℝ)), ((0 : ℝ), (0 : ℝ)), ((1 : ℝ), (0 : ℝ)),
          ((1 : ℝ), (0 : ℝ))] 1 =
      compute_max_error_ratio_amended [((0 : ℝ), (0 : ℝ)), ((1 : ℝ), (0 : ℝ))]
        [(0 : ℝ), (1 : ℝ)]
        [((0 : ℝ), (0 : ℝ)), ((0 : ℝ), (0 : ℝ)), ((1 : ℝ), (0 : ℝ)),
          ((1 : ℝ), (0 : ℝ))] 1 := by
  have h0 : (([(0 : ℝ), (1 : ℝ)] : List ℝ).getD 0 0 = 0) := by simp
  exact ⟨h0, c3_hook_from_curve _ _ _ _ h0⟩

theorem L2_eval (x y r : ℝ) (hr : 0 ≤ r) (h : x ^ 2 + y ^ 2 = r ^ 2) :
    L2 (x, y) = r := by
  have h0 : L2 (x, y) = Real.sqrt (x ^ 2 + y ^ 2) := rfl
  rw [h0, h, Real.sqrt_sq hr]

theorem bezier_pt_zero_curve (t : ℝ) :
    bezier_pt 3 [((0 : ℝ), (0 : ℝ)), ((0 : ℝ), (0 : ℝ)), ((0 : ℝ), (0 : ℝ)),
      ((0 : ℝ), (0 : ℝ))] t = ((0 : ℝ), (0 : ℝ)) := by
  rw [bezier_pt, show List.range 4 = [0, 1, 2, 3] from rfl]
  norm_num [Prod.ext_iff, Prod.smul_mk, smul_eq_mul]

theorem cmer_pair_eq (p q : Pt) (u0 u1 : ℝ) (bez : Seg) (tol : ℝ) :
    compute_max_error_ratio [p, q] [u0, u1] bez tol =
      (let st := cmerStep [p, q] [u0, u1] bez tol
        ⟨0, 0, 0, 0, bez.getD 0 0⟩ 1
       if st.maxHook ≤ Real.sqrt st.maxDistsq / tol
       then (Real.sqrt st.maxDistsq / tol, st.sp)
       else (-st.maxHook, st.snapEnd - 1)) := rfl

theorem cmer_claimed_pair_eq (p q : Pt) (u0 u1 : ℝ) (bez : Seg) (tol : ℝ) :
    compute_max_error_ratio_claimed [p, q] [u0, u1] bez tol =
      (let st := cmerStep_claimed [p, q] [u0, u1] bez tol
        ⟨0, 0, 0, 0, bez.getD 0 0⟩ 1
       if st.maxHook ≤ Real.sqrt st.maxDistsq / tol
       then (Real.sqrt st.maxDistsq / tol, st.sp)
       else (-st.maxHook, st.snapEnd - 1)) := rfl

theorem c3A_code :
    compute_max_error_ratio [((10 : ℝ), (0 : ℝ)), ((0 : ℝ), (0 : ℝ))]
      [(0 : ℝ), (1 : ℝ)]
      [((0 : ℝ), (0 : ℝ)), ((0 : ℝ), (0 : ℝ)), ((0 : ℝ), (0 : ℝ)),
        ((0 : ℝ), (0 : ℝ))] 1 = (0, 0) := by
  have hz : L2 ((0 : ℝ), (0 : ℝ)) = 0 := L2_eval 0 0 0 (le_refl 0) (by norm_num)
  have hz0 : L2 (0 : Pt) = 0 := hz
  rw [cmer_pair_eq]
  simp only [cmerStep, compute_hook, bezier_pt_zero_curve]
  norm_num [lensq, dot, Prod.smul_mk, smul_eq_mul, Prod.mk_add_mk,
    Prod.mk_sub_mk, hz, hz0]

theorem c3A_claimed :
    compute_max_error_ratio_claimed [((10 : ℝ), (0 : ℝ)), ((0 : ℝ), (0 : ℝ))]
      [(0 : ℝ), (1 : ℝ)]
      [((0 : ℝ), (0 : ℝ)), ((0 : ℝ), (0 : ℝ)), ((0 : ℝ), (0 : ℝ)),
        ((0 : ℝ), (0 : ℝ))] 1 = (-(5 / 3), 0) := by
  have h5 : L2 ((5 : ℝ), (0 : ℝ)) = 5 := L2_eval 5 0 5 (by norm_num) (by norm_num)
  have h10 : L2 ((-10 : ℝ), (0 : ℝ)) = 10 :=
    L2_eval (-10) 0 10 (by norm_num) (by norm_num)
  have hz0 : L2 (0 : Pt) = 0 := L2_eval 0 0 0 (le_refl 0) (by norm_num)
  rw [cmer_claimed_pair_eq]
  simp only [cmerStep_claimed, hook_claimed, bezier_pt_zero_curve]
  norm_num [lensq, dot, Prod.smul_mk, smul_eq_mul, Prod.mk_add_mk,
    Prod.mk_sub_mk, h5, h10, hz0]

theorem c3B_code :
    compute_max_error_ratio [((0 : ℝ), (0 : ℝ)), ((2 : ℝ), (0 : ℝ))]
      [(0 : ℝ), (1 : ℝ)]
      [((0 : ℝ), (0 : ℝ)), ((0 : ℝ), (-2 : ℝ)), ((2 : ℝ), (-2 : ℝ)),
        ((2 : ℝ), (0 : ℝ))] (3 / 2) = (-(15 / 19), 0) := by
  have hB1 : L2 ((0 : ℝ), (3 / 2 : ℝ)) = 3 / 2 :=
    L2_eval 0 (3 / 2) (3 / 2) (by norm_num) (by norm_num)
  have hB2 : L2 ((2 : ℝ), (0 : ℝ)) = 2 := L2_eval 2 0 2 (by norm_num) (by norm_num)
  rw [cmer_pair_eq]
  simp only [cmerStep, compute_hook]
  norm_num [bezier_pt, pascal, List.range_succ, lensq, dot, Prod.smul_mk,
    smul_eq_mul, Prod.mk_add_mk, Prod.mk_sub_mk, hB1, hB2]

theorem c3B_claimed :
    compute_max_error_ratio_claimed [((0 : ℝ), (0 : ℝ)), ((2 : ℝ), (0 : ℝ))]
      [(0 : ℝ), (1 : ℝ)]
      [((0 : ℝ), (0 : ℝ)), ((0 : ℝ), (-2 : ℝ)), ((2 : ℝ), (-2 : ℝ)),
        ((2 : ℝ), (0 : ℝ))] (3 / 2) = (0, 0) := by
  have hB1 : L2 ((0 : ℝ), (3 / 2 : ℝ)) = 3 / 2 :=
    L2_eval 0 (3 / 2) (3 / 2) (by norm_num) (by norm_num)
  rw [cmer_claimed_pair_eq]
  simp only [cmerStep_claimed, hook_claimed]
  norm_num [bezier_pt, pascal, List.range_succ, lensq, dot, Prod.smul_mk,
    smul_eq_mul, Prod.mk_add_mk, Prod.mk_sub_mk, hB1]

/-- C3 counterexample: the error evaluator does not compute the hook ratio
the way the claim says.  First input: degenerate curve with a data point
far from it — the code's hook (from curve points) is 0 while the claim's
hook (from data midpoints) is 5/3 and flips the sign of the result.
Second input: data equal to the curve's endpoints with the midpoint
distance exactly at the tolerance — the code fires the hook (`dist < tol`
fails) while the claim's strict "exceeds" does not. -/
theorem c3_counterexample :
    compute_max_error_ratio [((10 : ℝ), (0 : ℝ)), ((0 : ℝ), (0 : ℝ))]
        [(0 : ℝ), (1 : ℝ)]
        [((0 : ℝ), (0 : ℝ)), ((0 : ℝ), (0 : ℝ)), ((0 : ℝ), (0 : ℝ)),
          ((0 : ℝ), (0 : ℝ))] 1 ≠
      compute_max_error_ratio_claimed [((10 : ℝ), (0 : ℝ)), ((0 : ℝ), (0 : ℝ))]
        [(0 : ℝ), (1 : ℝ)]
        [((0 : ℝ), (0 : ℝ)), ((0 : ℝ), (0 : ℝ)), ((0 : ℝ), (0 : ℝ)),
          ((0 : ℝ), (0 : ℝ))] 1 ∧
    compute_max_error_ratio [((0 : ℝ), (0 : ℝ)), ((2 : ℝ), (0 : ℝ))]
        [(0 : ℝ), (1 : ℝ)]
        [((0 : ℝ), (0 : ℝ)), ((0 : ℝ), (-2 : ℝ)), ((2 : ℝ), (-2 : ℝ)),
          ((2 : ℝ), (0 : ℝ))] (3 / 2) ≠
      compute_max_error_ratio_claimed [((0 : ℝ), (0 : ℝ)), ((2 : ℝ), (0 : ℝ))]
        [(0 : ℝ), (1 : ℝ)]
        [((0 : ℝ), (0 : ℝ)), ((0 : ℝ), (-2 : ℝ)), ((2 : ℝ), (-2 : ℝ)),
          ((2 : ℝ), (0 : ℝ))] (3 / 2) := by
  constructor
  · rw [c3A_code, c3A_claimed]
    norm_num [Prod.ext_iff]
  · rw [c3B_code, c3B_claimed]
    norm_num [Prod.ext_iff]

/-! ### C8: trivial two-point fit -/

/-- C8: on a sanitized input of exactly two points, with budget at least 1
and non-negative tolerance, the fit returns exactly one segment whose
first and fourth control points equal the two input points exactly. -/
theorem c8_two_point_fit (d : List Pt) (t1 t2 : Pt) (e : ℝ) (mb : ℕ)
    (hlen : d.length = 2) (hsan : d.getD 0 0 ≠ d.getD 1 0)
    (hmb : 1 ≤ mb) (he : 0 ≤ e) :
    ∃ b1 b2 : Pt, sp_bezier_fit_cubic_full d t1 t2 e mb =
      some [[d.getD 0 0, b1, b2, d.getD 1 0]] := by
  rw [sp_bezier_fit_cubic_full,
    show 2 * mb + 2 = (2 * mb + 1) + 1 from rfl, fitFullF]
  rw [if_neg (by omega), if_neg (by omega), if_neg (not_lt.mpr he),
    if_neg (by omega), if_pos hlen]
  rw [if_neg (by simp [isNaN])]
  have h21 : d.length - 1 = 1 := by omega
  rw [h21]
  exact ⟨_, _, rfl⟩

/-- Witness for `c8_two_point_fit`: the claim's scenario, input
`[(0,0), (1,1)]` with tolerance 0 and budget 1. -/
theorem c8_two_point_fit_witness :
    ([((0 : ℝ), (0 : ℝ)), ((1 : ℝ), (1 : ℝ))] : List Pt).length = 2 ∧
    ([((0 : ℝ), (0 : ℝ)), ((1 : ℝ), (1 : ℝ))] : List Pt).getD 0 0 ≠
      ([((0 : ℝ), (0 : ℝ)), ((1 : ℝ), (1 : ℝ))] : List Pt).getD 1 0 ∧
    (∃ b1 b2 : Pt,
      sp_bezier_fit_cubic_full [((0 : ℝ), (0 : ℝ)), ((1 : ℝ), (1 : ℝ))]
        (0, 0) (0, 0) 0 1 =
        some [[([((0 : ℝ), (0 : ℝ)), ((1 : ℝ), (1 : ℝ))] : List Pt).getD 0 0,
          b1, b2,
          ([((0 : ℝ), (0 : ℝ)), ((1 : ℝ), (1 : ℝ))] : List Pt).getD 1 0]]) := by
  have h1 : ([((0 : ℝ), (0 : ℝ)), ((1 : ℝ), (1 : ℝ))] : List Pt).length = 2 := by
    simp
  have h2 : ([((0 : ℝ), (0 : ℝ)), ((1 : ℝ), (1 : ℝ))] : List Pt).getD 0 0 ≠
      ([((0 : ℝ), (0 : ℝ)), ((1 : ℝ), (1 : ℝ))] : List Pt).getD 1 0 := by
    simp [Prod.ext_iff]
  exact ⟨h1, h2, c8_two_point_fit _ (0, 0) (0, 0) 0 1 h1 h2 (le_refl 1)
    (le_refl 0)⟩

/-! ### C2: segment count never exceeds the budget -/

theorem fitAfter_length_le
    (rec : List Pt → Pt → Pt → ℝ → ℕ → Option (List Seg))
    (d : List Pt) (t1 t2 : Pt) (e : ℝ) (mb : ℕ) (s : FitState)
    (segs : List Seg) (hmb : 1 ≤ mb)
    (hrec : ∀ dd a b mb' segs', rec dd a b e mb' = some segs' →
      segs'.length ≤ mb')
    (h : fitAfter rec d t1 t2 e mb s = some segs) : segs.length ≤ mb := by
  simp only [fitAfter] at h
  split_ifs at h
  all_goals first
    | exact Option.noConfusion h
    | exact hrec _ _ _ _ _ h
    | (injection h with hh; subst hh; simpa using hmb)
    | (rw [Option.bind_eq_some] at h
       obtain ⟨segs1, hL, h⟩ := h
       rw [if_neg] at h
       · rw [Option.bind_eq_some] at h
         obtain ⟨segs2, hR, h⟩ := h
         injection h with hh
         subst hh
         have hl1 := hrec _ _ _ _ _ hL
         have hl2 := hrec _ _ _ _ _ hR
         rw [List.length_append]
         omega
       · intro hz
         rw [if_pos hz] at h
         exact Option.noConfusion h)

theorem fitFullF_length_le : ∀ (fuel : ℕ) (d : List Pt) (t1 t2 : Pt)
    (e : ℝ) (mb : ℕ) (segs : List Seg),
    fitFullF fuel d t1 t2 e mb = some segs → segs.length ≤ mb := by
  intro fuel
  induction fuel with
  | zero =>
    intro d t1 t2 e mb segs h
    exact Option.noConfusion h
  | succ f ih =>
    intro d t1 t2 e mb segs h
    simp only [fitFullF] at h
    split_ifs at h
    all_goals first
      | exact Option.noConfusion h
      | (injection h with hh; subst hh;
         simp only [List.length_cons, List.length_nil, List.length]
         omega)
      | exact fitAfter_length_le _ _ _ _ _ _ _ _ (by omega)
          (fun dd a b mb' segs' hx => ih dd a b e mb' segs' hx) h

/-- C2: whenever `sp_bezier_fit_cubic_full` with budget `max_beziers ≥ 1`
returns a segment list, its length is at most `max_beziers` — so only the
first `4·N` points of the caller's buffer are written, the left half's
segments preceding the right half's (the model's list lays segments out
in buffer order, left recursion's results prepended to the right's). -/
theorem c2_segment_budget (d : List Pt) (t1 t2 : Pt) (e : ℝ) (mb : ℕ)
    (segs : List Seg) (hmb : 1 ≤ mb)
    (h : sp_bezier_fit_cubic_full d t1 t2 e mb = some segs) :
    segs.length ≤ mb :=
  fitFullF_length_le _ _ _ _ _ _ _ h

/-- Witness for `c2_segment_budget` on the concrete two-point input. -/
theorem c2_segment_budget_witness :
    (1 : ℕ) ≤ 1 ∧
    sp_bezier_fit_cubic_full [((0 : ℝ), (0 : ℝ)), ((1 : ℝ), (1 : ℝ))]
      (0, 0) (0, 0) 0 1 =
      some [[((0 : ℝ), (0 : ℝ)), ((1 / 3 : ℝ), (1 / 3 : ℝ)),
        ((2 / 3 : ℝ), (2 / 3 : ℝ)), ((1 : ℝ), (1 : ℝ))]] ∧
    ([[((0 : ℝ), (0 : ℝ)), ((1 / 3 : ℝ), (1 / 3 : ℝ)),
      ((2 / 3 : ℝ), (2 / 3 : ℝ)), ((1 : ℝ), (1 : ℝ))]] : List Seg).length ≤ 1 :=
  ⟨le_refl 1, two_point_eval,
    c2_segment_budget _ _ _ _ _ _ (le_refl 1) two_point_eval⟩

/-! ### C1: infrastructure for the C0-chaining invariant -/

/-- Sanitization invariant: no two adjacent points are equal. -/
def AdjDistinct (d : List Pt) : Prop :=
  ∀ i, i + 1 < d.length → d.getD i 0 ≠ d.getD (i + 1) 0

/-- C0 continuity of a segment chain: each segment's 4th control point is
the next segment's 1st. -/
def C0Chained (segs : List Seg) : Prop :=
  ∀ i, i + 1 < segs.length →
    (segs.getD i []).getD 3 0 = (segs.getD (i + 1) []).getD 0 0

/-- Bundle of conclusions for a successful fit on `d`. -/
def FitResultOK (d : List Pt) (segs : List Seg) : Prop :=
  0 < segs.length ∧ C0Chained segs ∧
  (segs.getD 0 []).getD 0 0 = d.getD 0 0 ∧
  (segs.getD (segs.length - 1) []).getD 3 0 = d.getD (d.length - 1) 0 ∧
  ∀ sg ∈ segs, sg.getD 0 0 ∈ d ∧ sg.getD 3 0 ∈ d

theorem getD_mem {α : Type _} (l : List α) (i : ℕ) (x : α)
    (h : i < l.length) : l.getD i x ∈ l := by
  rw [List.getD_eq_getElem _ _ h]
  exact List.getElem_mem h

theorem getD_take' {α : Type _} (l : List α) (n i : ℕ) (x : α)
    (h : i < n) : (l.take n).getD i x = l.getD i x := by
  by_cases hl : i < l.length
  · rw [List.getD_eq_getElem _ _ (by rw [List.length_take]; omega),
      List.getD_eq_getElem _ _ hl]
    exact List.getElem_take ..
  · rw [List.getD_eq_default _ _ (by rw [List.length_take]; omega),
      List.getD_eq_default _ _ (by omega)]

theorem getD_drop' {α : Type _} (l : List α) (n i : ℕ) (x : α) :
    (l.drop n).getD i x = l.getD (n + i) x := by
  by_cases hl : n + i < l.length
  · rw [List.getD_eq_getElem _ _ (by rw [List.length_drop]; omega),
      List.getD_eq_getElem _ _ hl]
    rw [List.getElem_drop]
  · rw [List.getD_eq_default _ _ (by rw [List.length_drop]; omega),
      List.getD_eq_default _ _ (by omega)]

theorem L2_pos (p : Pt) (h : p ≠ 0) : 0 < L2 p := by
  rw [L2]
  apply Real.sqrt_pos.mpr
  have hor : p.1 ≠ 0 ∨ p.2 ≠ 0 := by
    by_contra hc
    push_neg at hc
    exact h (Prod.ext_iff.mpr ⟨hc.1, hc.2⟩)
  rcases hor with h1 | h1
  · have h2 : 0 < p.1 ^ 2 :=
      lt_of_le_of_ne (sq_nonneg _) (Ne.symm (pow_ne_zero 2 h1))
    linarith [sq_nonneg p.2]
  · have h2 : 0 < p.2 ^ 2 :=
      lt_of_le_of_ne (sq_nonneg _) (Ne.symm (pow_ne_zero 2 h1))
    linarith [sq_nonneg p.1]

theorem chord_tot_pos (d : List Pt) (hsan : AdjDistinct d)
    (hlen : 2 ≤ d.length) : 0 < (chordRawU d).getD (d.length - 1) 0 := by
  match d, hlen with
  | p :: q :: rest, _ =>
    have hne : p ≠ q := by
      have := hsan 0 (by simp)
      simpa using this
    rw [chordRawU_getD _ _ (le_refl _)]
    have hdists : List.zipWith (fun a b => L2 (b - a)) (p :: q :: rest)
        (p :: q :: rest).tail =
        L2 (q - p) :: List.zipWith (fun a b => L2 (b - a)) (q :: rest)
          rest := by
      simp
    rw [hdists]
    have hlen2 : (p :: q :: rest).length - 1 =
        (List.zipWith (fun a b => L2 (b - a)) (q :: rest) rest).length + 1 := by
      rw [List.length_zipWith]
      simp
    rw [hlen2, List.take_succ_cons,
      List.take_of_length_le (le_refl _), List.sum_cons]
    have hpos : 0 < L2 (q - p) :=
      L2_pos _ (sub_ne_zero.mpr (Ne.symm hne))
    have hnn : 0 ≤ (List.zipWith (fun a b => L2 (b - a)) (q :: rest)
        rest).sum :=
      List.sum_nonneg (chordDists_nonneg (q :: rest) rest)
    linarith

theorem chord_param_basic (d : List Pt) (hlen : 2 ≤ d.length)
    (htot : 0 < (chordRawU d).getD (d.length - 1) 0) :
    (chord_length_parameterize d).length = d.length ∧
    (chord_length_parameterize d).getD 0 0 = 0 ∧
    (chord_length_parameterize d).getD (d.length - 1) 0 = 1 := by
  have htne := ne_of_gt htot
  simp only [chord_length_parameterize, if_neg htne]
  refine ⟨?_, ?_, ?_⟩
  · rw [List.length_set, List.length_map, chordRawU_length d (by omega)]
  · rw [getD_set_ne _ _ _ _ (by omega), getD_map_div,
      chordRawU_getD d 0 (by omega)]
    simp
  · rw [getD_set_self]
    rw [List.length_map, chordRawU_length d (by omega)]
    omega

theorem C0Chained_append (s1 s2 : List Seg) (h1 : C0Chained s1)
    (h2 : C0Chained s2) (hne1 : 0 < s1.length) (hne2 : 0 < s2.length)
    (hlink : (s1.getD (s1.length - 1) []).getD 3 0 =
      (s2.getD 0 []).getD 0 0) : C0Chained (s1 ++ s2) := by
  intro i hi
  rw [List.length_append] at hi
  rcases Nat.lt_or_ge (i + 1) s1.length with hc | hc
  · rw [List.getD_append _ _ _ _ (by omega), List.getD_append _ _ _ _ hc]
    exact h1 i hc
  rcases Nat.lt_or_ge i s1.length with hc2 | hc2
  · -- boundary: i = s1.length - 1, i + 1 = s1.length
    have hieq : i = s1.length - 1 := by omega
    rw [List.getD_append _ _ _ _ hc2,
      List.getD_append_right _ _ _ _ hc, hieq]
    have : i + 1 - s1.length = 0 := by omega
    rw [hieq] at this
    rw [this]
    exact hlink
  · rw [List.getD_append_right _ _ _ _ (by omega),
      List.getD_append_right _ _ _ _ hc]
    have he : i + 1 - s1.length = (i - s1.length) + 1 := by omega
    rw [he]
    exact h2 _ (by omega)

theorem estimate_lengths_ends (d : List Pt) (u : List ℝ) (t1 t2 : Pt) :
    (estimate_lengths d u t1 t2).getD 0 0 = d.getD 0 0 ∧
    (estimate_lengths d u t1 t2).getD 3 0 = d.getD (d.length - 1) 0 := by
  simp only [estimate_lengths]
  constructor
  · rfl
  · rfl

theorem generate_bezier_ends (d : List Pt) (u : List ℝ) (t1 t2 : Pt)
    (tsq : ℝ) :
    (generate_bezier d u t1 t2 tsq).getD 0 0 = d.getD 0 0 ∧
    (generate_bezier d u t1 t2 tsq).getD 3 0 = d.getD (d.length - 1) 0 := by
  simp only [generate_bezier]
  split_ifs
  all_goals exact estimate_lengths_ends _ _ _ _

theorem reparameterize_length (d : List Pt) (u : List ℝ) (bez : Seg) :
    (reparameterize d u bez).length = d.length := by
  simp [reparameterize]

theorem reparameterize_getD_zero (d : List Pt) (u : List ℝ) (bez : Seg)
    (h : 1 ≤ d.length) :
    (reparameterize d u bez).getD 0 0 = u.getD 0 0 := by
  rw [reparameterize, getD_range_map _ _ _ (by omega)]
  simp

theorem reparameterize_getD_last (d : List Pt) (u : List ℝ) (bez : Seg)
    (h : 1 ≤ d.length) :
    (reparameterize d u bez).getD (d.length - 1) 0 =
      u.getD (d.length - 1) 0 := by
  rw [reparameterize, getD_range_map _ _ _ (by omega)]
  rw [if_neg (by omega)]

/-- Invariant of the fitting-attempt state: parameters span exactly the
data with endpoints 0 and 1, the curve interpolates the data's endpoints,
and the recorded ratio and split point come from the error evaluator. -/
def GoodState (d : List Pt) (tol : ℝ) (s : FitState) : Prop :=
  s.u.length = d.length ∧ s.u.getD 0 0 = 0 ∧
  s.u.getD (d.length - 1) 0 = 1 ∧
  s.bez.getD 0 0 = d.getD 0 0 ∧
  s.bez.getD 3 0 = d.getD (d.length - 1) 0 ∧
  (s.errRatio, s.sp) = compute_max_error_ratio d s.u s.bez tol

theorem fitStep_good (d : List Pt) (u : List ℝ) (t1 t2 : Pt) (e tol : ℝ)
    (hlen : 2 ≤ d.length) (hu1 : u.getD 0 0 = 0)
    (hu2 : u.getD (d.length - 1) 0 = 1) :
    GoodState d tol (fitStep d u t1 t2 e tol) := by
  refine ⟨?_, ?_, ?_, ?_, ?_, ?_⟩
  · exact reparameterize_length _ _ _
  · rw [show (fitStep d u t1 t2 e tol).u =
      reparameterize d u (generate_bezier d u t1 t2 e) from rfl,
      reparameterize_getD_zero _ _ _ (by omega)]
    exact hu1
  · rw [show (fitStep d u t1 t2 e tol).u =
      reparameterize d u (generate_bezier d u t1 t2 e) from rfl,
      reparameterize_getD_last _ _ _ (by omega)]
    exact hu2
  · exact (generate_bezier_ends d u t1 t2 e).1
  · exact (generate_bezier_ends d u t1 t2 e).2
  · rfl

theorem fitIters_good (d : List Pt) (t1 t2 : Pt) (e tol : ℝ)
    (hlen : 2 ≤ d.length) : ∀ (n : ℕ) (s : FitState),
    GoodState d tol s → GoodState d tol (fitIters d t1 t2 e tol n s) := by
  intro n
  induction n with
  | zero => intro s hs; exact hs
  | succ m ih =>
    intro s hs
    rw [fitIters]
    have hstep : GoodState d tol (fitStep d s.u t1 t2 e tol) :=
      fitStep_good d s.u t1 t2 e tol hlen hs.2.1 hs.2.2.1
    split_ifs
    · exact hstep
    · exact ih _ hstep

theorem fit_split_merge
    (rec : List Pt → Pt → Pt → ℝ → ℕ → Option (List Seg))
    (d : List Pt) (t1 t2 rtA rtB : Pt) (e : ℝ) (mb sp : ℕ)
    (segs : List Seg) (hsan : AdjDistinct d) (hlen : 2 ≤ d.length)
    (hsp1 : 1 ≤ sp) (hsp2 : sp ≤ d.length - 2)
    (hrec : ∀ dd a b mb' segs', AdjDistinct dd → 2 ≤ dd.length →
      rec dd a b e mb' = some segs' → FitResultOK dd segs')
    (h : ((rec (d.take (sp + 1)) t1 rtB e (mb - 1)).bind fun segs1 =>
        if segs1.length = 0 then none
        else (rec (d.drop sp) rtA t2 e (mb - segs1.length)).bind
          fun segs2 => some (segs1 ++ segs2)) = some segs) :
    FitResultOK d segs := by
  rw [Option.bind_eq_some] at h
  obtain ⟨segs1, hL, h⟩ := h
  by_cases hz : segs1.length = 0
  · rw [if_pos hz] at h
    exact Option.noConfusion h
  rw [if_neg hz, Option.bind_eq_some] at h
  obtain ⟨segs2, hR, h⟩ := h
  injection h with hh
  subst hh
  have hlen3 : 3 ≤ d.length := by omega
  have htk_len : (d.take (sp + 1)).length = sp + 1 := by
    rw [List.length_take]
    omega
  have hdp_len : (d.drop sp).length = d.length - sp := by
    rw [List.length_drop]
  have hsanL : AdjDistinct (d.take (sp + 1)) := by
    intro i hi
    rw [htk_len] at hi
    rw [getD_take' _ _ _ _ (by omega), getD_take' _ _ _ _ (by omega)]
    exact hsan i (by omega)
  have hsanR : AdjDistinct (d.drop sp) := by
    intro i hi
    rw [hdp_len] at hi
    rw [getD_drop', getD_drop']
    have hx := hsan (sp + i) (by omega)
    have he : sp + (i + 1) = sp + i + 1 := by omega
    rw [he]
    exact hx
  have okL := hrec _ _ _ _ _ hsanL (by omega) hL
  have okR := hrec _ _ _ _ _ hsanR (by omega) hR
  obtain ⟨hL1, hL2, hL3, hL4, hL5⟩ := okL
  obtain ⟨hR1, hR2, hR3, hR4, hR5⟩ := okR
  rw [htk_len] at hL4
  rw [getD_take' _ _ _ _ (by omega)] at hL3
  have he1 : sp + 1 - 1 = sp := by omega
  rw [he1, getD_take' _ _ _ _ (by omega)] at hL4
  rw [getD_drop'] at hR3
  rw [Nat.add_zero] at hR3
  rw [hdp_len, getD_drop'] at hR4
  have he2 : sp + (d.length - sp - 1) = d.length - 1 := by omega
  rw [he2] at hR4
  refine ⟨?_, ?_, ?_, ?_, ?_⟩
  · rw [List.length_append]
    omega
  · apply C0Chained_append _ _ hL2 hR2 hL1 hR1
    rw [hL4, hR3]
  · rw [List.getD_append _ _ _ _ (by omega)]
    exact hL3
  · rw [List.length_append, List.getD_append_right _ _ _ _ (by omega)]
    have he3 : segs1.length + segs2.length - 1 - segs1.length =
        segs2.length - 1 := by omega
    rw [he3]
    exact hR4
  · intro sg hsg
    rcases List.mem_append.mp hsg with hm | hm
    · have hx := hL5 sg hm
      exact ⟨List.take_subset _ _ hx.1, List.take_subset _ _ hx.2⟩
    · have hx := hR5 sg hm
      exact ⟨List.drop_subset _ _ hx.1, List.drop_subset _ _ hx.2⟩

theorem fitAfter_chain
    (rec : List Pt → Pt → Pt → ℝ → ℕ → Option (List Seg))
    (d : List Pt) (t1 t2 : Pt) (e tol : ℝ) (mb : ℕ) (s : FitState)
    (segs : List Seg) (hsan : AdjDistinct d) (hlen : 2 ≤ d.length)
    (hgood : GoodState d tol s)
    (hrec : ∀ dd a b mb' segs', AdjDistinct dd → 2 ≤ dd.length →
      rec dd a b e mb' = some segs' → FitResultOK dd segs')
    (h : fitAfter rec d t1 t2 e mb s = some segs) : FitResultOK d segs := by
  obtain ⟨hulen, hu0, hu1, hbez0, hbez3, heq⟩ := hgood
  have hpost := compute_max_error_ratio_post d s.u s.bez tol hlen hu1 hbez3
  rw [← heq] at hpost
  have hpost2 : s.errRatio = 0 ∨
      (s.sp < d.length - 1 ∧ (s.sp ≠ 0 ∨ s.errRatio < 0)) := by
    simpa using hpost
  simp only [fitAfter] at h
  split_ifs at h with h1 h2 h3 h4 h5 h6
  · -- accept: one segment whose ends interpolate the data's ends
    injection h with hh
    subst hh
    refine ⟨by simp, ?_, by simpa using hbez0, by simpa using hbez3, ?_⟩
    · intro i hi
      simp at hi
    · intro sg hsg
      rw [List.mem_singleton] at hsg
      subst hsg
      constructor
      · rw [hbez0]
        exact getD_mem d 0 0 (by omega)
      · rw [hbez3]
        exact getD_mem d _ 0 (by omega)
  · exact hrec d _ _ _ _ hsan hlen h
  · exact hrec d _ _ _ _ hsan hlen h
  · -- corner split
    have hB : 0 < driver_adjusted_split s.errRatio s.sp d.length ∧
        driver_adjusted_split s.errRatio s.sp d.length < d.length - 1 := by
      by_contra hnb
      exact h5 ⟨h6, hnb⟩
    exact fit_split_merge rec d t1 t2 _ _ e mb _ segs hsan hlen hB.1
      (by omega) hrec h
  · -- non-corner split
    have hrne : s.errRatio ≠ 0 := by
      intro h0
      exact h1 (by rw [h0]; simp)
    have hb := hpost2.resolve_left hrne
    have hsp0 : s.sp ≠ 0 := hb.2.resolve_right h6
    have hsp' : driver_adjusted_split s.errRatio s.sp d.length = s.sp := by
      rw [driver_adjusted_split, if_neg (fun hc => h6 hc.1),
        if_neg (fun hc => h6 hc.1)]
    rw [hsp'] at h
    exact fit_split_merge rec d t1 t2 _ _ e mb s.sp segs hsan hlen
      (by omega) (by omega) hrec h

theorem singleton_ok (d : List Pt) (hlen : 2 ≤ d.length) (b1 b2 : Pt)
    (segs : List Seg)
    (h : some [[d.getD 0 0, b1, b2, d.getD (d.length - 1) 0]] = some segs) :
    FitResultOK d segs := by
  injection h with hh
  subst hh
  refine ⟨by simp, ?_, by simp, by simp, ?_⟩
  · intro i hi
    simp at hi
  · intro sg hsg
    rw [List.mem_singleton] at hsg
    subst hsg
    refine ⟨?_, ?_⟩
    · simpa using getD_mem d 0 0 (by omega)
    · simpa using getD_mem d (d.length - 1) 0 (by omega)

theorem accept_ok (d : List Pt) (hlen : 2 ≤ d.length) (bez : Seg)
    (segs : List Seg) (hb0 : bez.getD 0 0 = d.getD 0 0)
    (hb3 : bez.getD 3 0 = d.getD (d.length - 1) 0)
    (h : some [bez] = some segs) : FitResultOK d segs := by
  injection h with hh
  subst hh
  refine ⟨by simp, ?_, by simpa using hb0, by simpa using hb3, ?_⟩
  · intro i hi
    simp at hi
  · intro sg hsg
    rw [List.mem_singleton] at hsg
    subst hsg
    refine ⟨?_, ?_⟩
    · rw [hb0]
      exact getD_mem d 0 0 (by omega)
    · rw [hb3]
      exact getD_mem d _ 0 (by omega)

theorem fitFullF_chain : ∀ (fuel : ℕ) (d : List Pt) (t1 t2 : Pt) (e : ℝ)
    (mb : ℕ) (segs : List Seg), AdjDistinct d → 2 ≤ d.length →
    fitFullF fuel d t1 t2 e mb = some segs → FitResultOK d segs := by
  intro fuel
  induction fuel with
  | zero =>
    intro d t1 t2 e mb segs _ _ h
    exact Option.noConfusion h
  | succ f ih =>
    intro d t1 t2 e mb segs hsan hlen h
    simp only [fitFullF] at h
    split_ifs at h
    all_goals first
      | exact absurd hlen (by omega)
      | exact singleton_ok d hlen _ _ segs h
      | (exfalso
         have hpos := chord_tot_pos d hsan hlen
         have hbasic := chord_param_basic d hlen hpos
         simp_all
         done)
      | (have hpos := chord_tot_pos d hsan hlen
         have hbasic := chord_param_basic d hlen hpos
         exact accept_ok d hlen _ segs
           (fitStep_good d (chord_length_parameterize d) t1 t2 e _ hlen
             hbasic.2.1 hbasic.2.2).2.2.2.1
           (fitStep_good d (chord_length_parameterize d) t1 t2 e _ hlen
             hbasic.2.1 hbasic.2.2).2.2.2.2.1
           h)
      | (have hpos := chord_tot_pos d hsan hlen
         have hbasic := chord_param_basic d hlen hpos
         exact fitAfter_chain (fitFullF f) d t1 t2 e (Real.sqrt (e + 1e-9))
           mb _ segs hsan hlen
           (fitIters_good d t1 t2 e _ hlen 4 _
             (fitStep_good d (chord_length_parameterize d) t1 t2 e _ hlen
               hbasic.2.1 hbasic.2.2))
           (fun dd a b mb' segs' hs hl hx => ih dd a b e mb' segs' hs hl hx)
           h)
      | (have hpos := chord_tot_pos d hsan hlen
         have hbasic := chord_param_basic d hlen hpos
         exact fitAfter_chain (fitFullF f) d t1 t2 e (Real.sqrt (e + 1e-9))
           mb _ segs hsan hlen
           (fitStep_good d (chord_length_parameterize d) t1 t2 e _ hlen
             hbasic.2.1 hbasic.2.2)
           (fun dd a b mb' segs' hs hl hx => ih dd a b e mb' segs' hs hl hx)
           h)

/-- C1: for every call to `sp_bezier_fit_cubic_full` on pre-sanitized input
(no adjacent duplicates, at least two points) that succeeds with `N ≥ 1`
segments, the output segments are C0-chained (segment k's 4th control point
equals segment k+1's 1st), the first segment starts at the first data point,
the last segment ends at the last data point, and every segment's 1st and 4th
control points are input data points (each recursive sub-fit interpolates
the endpoints of the sub-range it was fit to, so those endpoints are data
points of the sub-range). -/
theorem c1_c0_chained (d : List Pt) (t1 t2 : Pt) (e : ℝ) (mb : ℕ)
    (segs : List Seg) (hsan : AdjDistinct d) (hlen : 2 ≤ d.length)
    (h : sp_bezier_fit_cubic_full d t1 t2 e mb = some segs)
    (hn : 1 ≤ segs.length) :
    C0Chained segs ∧
      (segs.getD 0 []).getD 0 0 = d.getD 0 0 ∧
      (segs.getD (segs.length - 1) []).getD 3 0 = d.getD (d.length - 1) 0 ∧
      ∀ sg ∈ segs, sg.getD 0 0 ∈ d ∧ sg.getD 3 0 ∈ d := by
  have hres := fitFullF_chain (2 * mb + 2) d t1 t2 e mb segs hsan hlen h
  exact ⟨hres.2.1, hres.2.2.1, hres.2.2.2.1, hres.2.2.2.2⟩

/-- Witness for `c1_c0_chained`: the two-point diagonal input with budget 1
yields the single segment `[(0,0), (1/3,1/3), (2/3,2/3), (1,1)]`, whose
chain conditions and endpoint equalities the theorem certifies. -/
theorem c1_c0_chained_witness :
    AdjDistinct [((0 : ℝ), (0 : ℝ)), ((1 : ℝ), (1 : ℝ))] ∧
    C0Chained [[((0 : ℝ), (0 : ℝ)), ((1 / 3 : ℝ), (1 / 3 : ℝ)),
      ((2 / 3 : ℝ), (2 / 3 : ℝ)), ((1 : ℝ), (1 : ℝ))]] ∧
    (([[((0 : ℝ), (0 : ℝ)), ((1 / 3 : ℝ), (1 / 3 : ℝ)),
      ((2 / 3 : ℝ), (2 / 3 : ℝ)), ((1 : ℝ), (1 : ℝ))]] :
        List Seg).getD 0 []).getD 0 0 =
      ([((0 : ℝ), (0 : ℝ)), ((1 : ℝ), (1 : ℝ))] : List Pt).getD 0 0 ∧
    (∀ sg ∈ ([[((0 : ℝ), (0 : ℝ)), ((1 / 3 : ℝ), (1 / 3 : ℝ)),
      ((2 / 3 : ℝ), (2 / 3 : ℝ)), ((1 : ℝ), (1 : ℝ))]] : List Seg),
      sg.getD 0 0 ∈ ([((0 : ℝ), (0 : ℝ)), ((1 : ℝ), (1 : ℝ))] : List Pt) ∧
      sg.getD 3 0 ∈ ([((0 : ℝ), (0 : ℝ)), ((1 : ℝ), (1 : ℝ))] : List Pt)) := by
  have hsan : AdjDistinct [((0 : ℝ), (0 : ℝ)), ((1 : ℝ), (1 : ℝ))] := by
    intro i hi
    simp only [List.length_cons, List.length_nil] at hi
    have h0 : i = 0 := by omega
    subst h0
    simp [Prod.ext_iff]
  have h := c1_c0_chained [((0 : ℝ), (0 : ℝ)), ((1 : ℝ), (1 : ℝ))]
    (0, 0) (0, 0) 0 1
    [[((0 : ℝ), (0 : ℝ)), ((1 / 3 : ℝ), (1 / 3 : ℝ)),
      ((2 / 3 : ℝ), (2 / 3 : ℝ)), ((1 : ℝ), (1 : ℝ))]]
    hsan (by simp) two_point_eval (by simp)
  exact ⟨hsan, h.1, h.2.1, h.2.2.2⟩

/-! ### C9: recursion depth of `sp_bezier_fit_cubic_full` -/

/-- Fuel potential of a tangent hint: a nonzero hint allows one extra
tangent-dropping retry level before it is zeroed. -/
noncomputable def tangentCost (t : Pt) : ℕ := if t = (0, 0) then 0 else 1

theorem tangentCost_le (t : Pt) : tangentCost t ≤ 1 := by
  unfold tangentCost
  split_ifs <;> omega

theorem cost_left_lt (mb mb' : ℕ) (b t1 t2 : Pt) (hmb' : mb' < mb) :
    2 * mb' + tangentCost t1 + tangentCost b <
      2 * mb + tangentCost t1 + tangentCost t2 := by
  have h1 := tangentCost_le b
  omega

theorem cost_right_lt (mb mb' : ℕ) (a t1 t2 : Pt) (hmb' : mb' < mb) :
    2 * mb' + tangentCost a + tangentCost t2 <
      2 * mb + tangentCost t1 + tangentCost t2 := by
  have h1 := tangentCost_le a
  omega

theorem cost_retry1_lt (mb : ℕ) (t1 t2 : Pt) (h : t1 ≠ (0, 0)) :
    2 * mb + tangentCost ((0, 0) : Pt) + tangentCost t2 <
      2 * mb + tangentCost t1 + tangentCost t2 := by
  have h1 : tangentCost t1 = 1 := by unfold tangentCost; rw [if_neg h]
  have h2 : tangentCost ((0, 0) : Pt) = 0 := by
    unfold tangentCost; rw [if_pos rfl]
  omega

theorem cost_retry2_lt (mb : ℕ) (t1 t2 : Pt) (h : t2 ≠ (0, 0)) :
    2 * mb + tangentCost t1 + tangentCost ((0, 0) : Pt) <
      2 * mb + tangentCost t1 + tangentCost t2 := by
  have h1 : tangentCost t2 = 1 := by unfold tangentCost; rw [if_neg h]
  have h2 : tangentCost ((0, 0) : Pt) = 0 := by
    unfold tangentCost; rw [if_pos rfl]
  omega

set_option maxHeartbeats 1600000 in
theorem fitAfter_congr (r1 r2 : List Pt → Pt → Pt → ℝ → ℕ → Option (List Seg))
    (data : List Pt) (t1 t2 : Pt) (e : ℝ) (mb : ℕ) (s : FitState)
    (hrec : ∀ d' a b mb',
      2 * mb' + tangentCost a + tangentCost b <
        2 * mb + tangentCost t1 + tangentCost t2 →
      r1 d' a b e mb' = r2 d' a b e mb') :
    fitAfter r1 data t1 t2 e mb s = fitAfter r2 data t1 t2 e mb s := by
  simp only [fitAfter]
  split_ifs with h1 h2 h3 h4 h5 h6
  · rfl
  · exact hrec data (0, 0) t2 mb (cost_retry1_lt mb t1 t2 h2.2.2)
  · exact hrec data t1 (0, 0) mb (cost_retry2_lt mb t1 t2 h3.2.2)
  · rfl
  all_goals (
    first
    | rfl
    | (rw [hrec _ t1 _ (mb - 1) (cost_left_lt mb (mb - 1) _ t1 t2 (by omega))]
       apply Option.bind_congr
       intro segs1 hm
       split_ifs with hlen
       · rfl
       · rw [hrec _ _ t2 (mb - segs1.length)
           (cost_right_lt mb (mb - segs1.length) _ t1 t2 (by omega))]))

set_option maxHeartbeats 3200000 in
theorem fitFullF_fuel_invariant : ∀ (f1 f2 : ℕ) (d : List Pt)
    (t1 t2 : Pt) (e : ℝ) (mb : ℕ),
    2 * mb + tangentCost t1 + tangentCost t2 ≤ f1 →
    2 * mb + tangentCost t1 + tangentCost t2 ≤ f2 →
    fitFullF f1 d t1 t2 e mb = fitFullF f2 d t1 t2 e mb := by
  intro f1
  induction f1 using Nat.strong_induction_on with
  | _ f1 ih =>
    intro f2 d t1 t2 e mb h1 h2
    match f1, h1 with
    | 0, h1 =>
      have hmb : mb = 0 := by omega
      subst hmb
      cases f2 with
      | zero => rfl
      | succ g2 =>
        show none = fitFullF (g2 + 1) d t1 t2 e 0
        rw [fitFullF]
        split_ifs <;> first | rfl | omega
    | g1 + 1, h1 =>
      cases f2 with
      | zero =>
        have hmb : mb = 0 := by omega
        subst hmb
        show fitFullF (g1 + 1) d t1 t2 e 0 = none
        rw [fitFullF]
        split_ifs <;> first | rfl | omega
      | succ g2 =>
        simp only [fitFullF]
        have hg1 : g1 < g1 + 1 := Nat.lt_succ_self g1
        split_ifs
        all_goals first
          | (apply fitAfter_congr
             intro d' a b mb' hlt
             exact ih g1 hg1 g2 d' a b e mb' (by omega) (by omega))
          | rfl

/-- C9: (corrected) every valid call of `sp_bezier_fit_cubic_full`
terminates with a recursion depth below `2·max_beziers + 2` activations
counting both tangent-dropping retry calls and split-and-recurse calls:
the fuelled embedding is independent of the fuel once it reaches
`2 · max_beziers + 2`, the fuel supplied by the wrapper.  The spec's
claimed bound `max_beziers` is too small: see the counterexample, where a
retry, a split and a second retry stack a recursion depth of 3 on budget
2. -/
theorem c9_depth_bound (d : List Pt) (t1 t2 : Pt) (e : ℝ) (mb fuel : ℕ)
    (h : 2 * mb + 2 ≤ fuel) :
    fitFullF fuel d t1 t2 e mb = sp_bezier_fit_cubic_full d t1 t2 e mb := by
  have h1 := tangentCost_le t1
  have h2 := tangentCost_le t2
  simp only [sp_bezier_fit_cubic_full]
  exact fitFullF_fuel_invariant fuel (2 * mb + 2) d t1 t2 e mb
    (by omega) (by omega)

/-- Witness for `c9_depth_bound`: on the diagonal two-point input with
budget 1, fuel 7 already computes the wrapper's result. -/
theorem c9_depth_bound_witness :
    2 * 1 + 2 ≤ 7 ∧
    fitFullF 7 [((0 : ℝ), (0 : ℝ)), ((1 : ℝ), (1 : ℝ))] (0, 0) (0, 0) 0 1 =
      sp_bezier_fit_cubic_full [((0 : ℝ), (0 : ℝ)), ((1 : ℝ), (1 : ℝ))]
        (0, 0) (0, 0) 0 1 :=
  ⟨by omega,
    c9_depth_bound [((0 : ℝ), (0 : ℝ)), ((1 : ℝ), (1 : ℝ))] (0, 0) (0, 0)
      0 1 7 (by omega)⟩

/-! ### C9 counterexample: concrete evaluation helpers -/

theorem bezier_pt3_eval (x0 y0 x1 y1 x2 y2 x3 y3 t : ℝ) :
    bezier_pt 3 [(x0, y0), (x1, y1), (x2, y2), (x3, y3)] t =
      ((1 - t) ^ 3 * x0 + 3 * (1 - t) ^ 2 * t * x1 + 3 * (1 - t) * t ^ 2 * x2
        + t ^ 3 * x3,
       (1 - t) ^ 3 * y0 + 3 * (1 - t) ^ 2 * t * y1 + 3 * (1 - t) * t ^ 2 * y2
        + t ^ 3 * y3) := by
  rw [bezier_pt, show List.range 4 = [0, 1, 2, 3] from rfl]
  simp only [List.map_cons, List.map_nil, List.sum_cons, List.sum_nil,
    List.getD_cons_zero, List.getD_cons_succ, pascal, Prod.smul_mk,
    smul_eq_mul, Prod.mk_add_mk, Prod.ext_iff, add_zero]
  constructor <;> push_cast <;> ring

theorem bezier_pt2_eval (x0 y0 x1 y1 x2 y2 t : ℝ) :
    bezier_pt 2 [(x0, y0), (x1, y1), (x2, y2)] t =
      ((1 - t) ^ 2 * x0 + 2 * (1 - t) * t * x1 + t ^ 2 * x2,
       (1 - t) ^ 2 * y0 + 2 * (1 - t) * t * y1 + t ^ 2 * y2) := by
  rw [bezier_pt, show List.range 3 = [0, 1, 2] from rfl]
  simp only [List.map_cons, List.map_nil, List.sum_cons, List.sum_nil,
    List.getD_cons_zero, List.getD_cons_succ, pascal, Prod.smul_mk,
    smul_eq_mul, Prod.mk_add_mk, Prod.ext_iff, add_zero]
  constructor <;> push_cast <;> ring

theorem bezier_pt1_eval (x0 y0 x1 y1 t : ℝ) :
    bezier_pt 1 [(x0, y0), (x1, y1)] t =
      ((1 - t) * x0 + t * x1, (1 - t) * y0 + t * y1) := by
  rw [bezier_pt, show List.range 2 = [0, 1] from rfl]
  simp only [List.map_cons, List.map_nil, List.sum_cons, List.sum_nil,
    List.getD_cons_zero, List.getD_cons_succ, pascal, Prod.smul_mk,
    smul_eq_mul, Prod.mk_add_mk, Prod.ext_iff, add_zero]
  constructor <;> push_cast <;> ring

theorem L2_sqrt (x y s : ℝ) (h : x ^ 2 + y ^ 2 = s) :
    L2 (x, y) = Real.sqrt s := by
  rw [show L2 (x, y) = Real.sqrt (x ^ 2 + y ^ 2) from rfl, h]

theorem L2_lt_of_sq (x y q : ℝ) (hq : 0 < q) (h : x ^ 2 + y ^ 2 < q ^ 2) :
    L2 (x, y) < q := by
  rw [show L2 (x, y) = Real.sqrt (x ^ 2 + y ^ 2) from rfl]
  exact (Real.sqrt_lt' hq).mpr h

theorem le_L2_of_sq (x y q : ℝ) (hq : 0 ≤ q) (h : q ^ 2 ≤ x ^ 2 + y ^ 2) :
    q ≤ L2 (x, y) := by
  rw [show L2 (x, y) = Real.sqrt (x ^ 2 + y ^ 2) from rfl]
  calc q = Real.sqrt (q ^ 2) := (Real.sqrt_sq hq).symm
    _ ≤ _ := Real.sqrt_le_sqrt h

theorem L2_le_of_sq (x y q : ℝ) (hq : 0 ≤ q) (h : x ^ 2 + y ^ 2 ≤ q ^ 2) :
    L2 (x, y) ≤ q := by
  rw [show L2 (x, y) = Real.sqrt (x ^ 2 + y ^ 2) from rfl]
  exact Real.sqrt_le_sqrt h |>.trans (by rw [Real.sqrt_sq hq])

theorem sqrt_lt_of_sq (s q : ℝ) (hq : 0 < q) (h : s < q ^ 2) :
    Real.sqrt s < q := (Real.sqrt_lt' hq).mpr h

theorem lt_sqrt_of_sq (s q : ℝ) (hs : 0 ≤ s) (h : q ^ 2 < s) :
    q < Real.sqrt s := by
  rcases le_or_lt q 0 with hq | hq
  · exact lt_of_le_of_lt hq (Real.sqrt_pos.mpr (lt_of_le_of_lt (sq_nonneg q) h))
  · exact (Real.lt_sqrt hq.le).mpr h

theorem nrBlend_stop (Q : Seg) (P : Pt) (uo df prop iu : ℝ) (n : ℕ)
    (h : ¬ lensq (bezier_pt 3 Q iu - P) > df) :
    nrBlend Q P uo df (n + 1) prop iu = iu := by
  rw [nrBlend, if_neg h]

/-- C9 counterexample input data. -/
noncomputable def c9d : List Pt := [(0, 0), (-5, 12), (4, 0), (4, -3)]

/-- C9 counterexample start tangent hint. -/
noncomputable def c9t1 : Pt := (-3/5, 4/5)

/-- C9 counterexample tolerance argument (`√(c9e + 1e-9) = 1/4`). -/
noncomputable def c9e : ℝ := 1/16 - 1e-9

/-- Right-half data of the C9 split, `c9d.drop 1`. -/
noncomputable def c9dr : List Pt := [(-5, 12), (4, 0), (4, -3)]

/-- Chord parameters of `c9dr`. -/
noncomputable def c9u0r : List ℝ := [0, 5/6, 1]

/-- Curve fitted in the right-child frame (tangents `(1,0)`, estimated). -/
noncomputable def c9bezRC : Seg := [(-5, 12), (23/5, 12), (4, 61/25), (4, -3)]

/-- Curve fitted and accepted in the final frame (both tangents dropped). -/
noncomputable def c9bezF4 : Seg :=
  [(-5, 12), (23/5, 1636/455), (4, 375/91), (4, -3)]

/-- Left-half segment produced by the trivial two-point fit. -/
noncomputable def c9segL : Seg := [(0, 0), (-5/3, 4), (-28/3, 12), (-5, 12)]

theorem c9tol : Real.sqrt (c9e + 1e-9) = 1/4 := by
  have h : c9e + 1e-9 = (1/4 : ℝ) ^ 2 := by norm_num [c9e]
  rw [h, Real.sqrt_sq (by norm_num)]

theorem c9e_nonneg : (0 : ℝ) ≤ c9e := by norm_num [c9e]

theorem c9_curveRC1 : bezier_pt 3 c9bezRC (5/6) = ((4 : ℝ), (0 : ℝ)) := by
  simp only [c9bezRC, bezier_pt3_eval]
  norm_num

theorem c9_curveRCP1 :
    bezier_pt 3 c9bezRC (5/12) = ((79/32 : ℝ), (769/96 : ℝ)) := by
  simp only [c9bezRC, bezier_pt3_eval]
  norm_num

theorem c9_curveRCP2 :
    bezier_pt 3 c9bezRC (11/12) = ((641/160 : ℝ), (-3749/2400 : ℝ)) := by
  simp only [c9bezRC, bezier_pt3_eval]
  norm_num

theorem c9_curveRC2 : bezier_pt 3 c9bezRC 1 = ((4 : ℝ), (-3 : ℝ)) := by
  simp only [c9bezRC, bezier_pt3_eval]
  norm_num

theorem c9_RC_hook_pos :
    0 < L2 ((-(95/32) : ℝ), (-(193/96) : ℝ)) / (13/4) := by
  apply div_pos _ (by norm_num)
  apply lt_of_lt_of_le _ (le_L2_of_sq _ _ 1 (by norm_num) (by norm_num))
  norm_num

theorem c9_RC_hook_gt_one :
    1 < L2 ((-(95/32) : ℝ), (-(193/96) : ℝ)) / (13/4) := by
  rw [lt_div_iff (by norm_num)]
  apply lt_of_lt_of_le _ (le_L2_of_sq _ _ (7/2) (by norm_num) (by norm_num))
  norm_num

theorem c9_cmerRC :
    compute_max_error_ratio c9dr c9u0r c9bezRC (1/4) =
      (-(L2 ((-(95/32) : ℝ), (-(193/96) : ℝ)) / (13/4)), 0) := by
  have hb : (0.5 : ℝ) * (c9u0r.getD 0 0 + c9u0r.getD 1 0) = 5/12 := by
    norm_num [c9u0r]
  have hb2 : (0.5 : ℝ) * (c9u0r.getD 1 0 + c9u0r.getD 2 0) = 11/12 := by
    norm_num [c9u0r]
  have hfire : ¬ (L2 ((-(95/32) : ℝ), (-(193/96) : ℝ)) < 1/4) := by
    push_neg
    apply le_L2_of_sq _ _ _ (by norm_num)
    norm_num
  have hno : L2 ((-(1/160) : ℝ), (149/2400 : ℝ)) < 1/4 := by
    apply L2_lt_of_sq _ _ _ (by norm_num)
    norm_num
  have hchord : L2 ((9 : ℝ), (-12 : ℝ)) = 15 := by
    apply L2_eval _ _ _ (by norm_num)
    norm_num
  have hpos := c9_RC_hook_pos
  have hnn : ¬ (L2 ((-(95/32) : ℝ), (-(193/96) : ℝ)) / (13/4) < 0) :=
    not_lt.mpr hpos.le
  rw [compute_max_error_ratio_eq]
  have hfold : cmerFold c9dr c9u0r c9bezRC (1/4) =
      ⟨0, 0, L2 ((-(95/32) : ℝ), (-(193/96) : ℝ)) / (13/4), 1, (4, -3)⟩ := by
    rw [cmerFold, show c9dr.length - 1 = 2 from rfl,
      show List.range' 1 2 = [1, 2] from rfl]
    simp only [List.foldl_cons, List.foldl_nil]
    rw [show (⟨0, 0, 0, 0, c9bezRC.getD 0 0⟩ : CmerSt) =
      ⟨0, 0, 0, 0, (-5, 12)⟩ from by norm_num [c9bezRC]]
    simp only [cmerStep, compute_hook, hb, hb2]
    norm_num [c9dr, c9u0r, c9_curveRC1, c9_curveRCP1, c9_curveRCP2,
      c9_curveRC2, lensq, dot, hfire, hno, hchord, hpos.le, hpos, hnn,
      lt_irrefl, Prod.mk_sub_mk]
  rw [hfold]
  norm_num [hpos, hpos.le, not_le.mpr hpos]

theorem c9_curveF41 : bezier_pt 3 c9bezF4 (5/6) = ((4 : ℝ), (0 : ℝ)) := by
  simp only [c9bezF4, bezier_pt3_eval]
  norm_num

theorem c9_curveF4P1 :
    bezier_pt 3 c9bezF4 (5/12) = ((79/32 : ℝ), (6173/1248 : ℝ)) := by
  simp only [c9bezF4, bezier_pt3_eval]
  norm_num

theorem c9_curveF4P2 :
    bezier_pt 3 c9bezF4 (11/12) = ((641/160 : ℝ), (-(59819/43680) : ℝ)) := by
  simp only [c9bezF4, bezier_pt3_eval]
  norm_num

theorem c9_curveF42 : bezier_pt 3 c9bezF4 1 = ((4 : ℝ), (-3 : ℝ)) := by
  simp only [c9bezF4, bezier_pt3_eval]
  norm_num

theorem c9_F4_hook_pos :
    0 < L2 ((-(95/32) : ℝ), (1315/1248 : ℝ)) / (13/4) := by
  apply div_pos _ (by norm_num)
  apply lt_of_lt_of_le _ (le_L2_of_sq _ _ 1 (by norm_num) (by norm_num))
  norm_num

theorem c9_F4_hook_le_one :
    L2 ((-(95/32) : ℝ), (1315/1248 : ℝ)) / (13/4) ≤ 1 := by
  rw [div_le_one (by norm_num)]
  apply L2_le_of_sq _ _ _ (by norm_num)
  norm_num

theorem c9_cmerF4 :
    compute_max_error_ratio c9dr c9u0r c9bezF4 (1/4) =
      (-(L2 ((-(95/32) : ℝ), (1315/1248 : ℝ)) / (13/4)), 0) := by
  have hb : (0.5 : ℝ) * (c9u0r.getD 0 0 + c9u0r.getD 1 0) = 5/12 := by
    norm_num [c9u0r]
  have hb2 : (0.5 : ℝ) * (c9u0r.getD 1 0 + c9u0r.getD 2 0) = 11/12 := by
    norm_num [c9u0r]
  have hfire : ¬ (L2 ((-(95/32) : ℝ), (1315/1248 : ℝ)) < 1/4) := by
    push_neg
    apply le_L2_of_sq _ _ _ (by norm_num)
    norm_num
  have hno : L2 ((-(1/160) : ℝ), (-(5701/43680) : ℝ)) < 1/4 := by
    apply L2_lt_of_sq _ _ _ (by norm_num)
    norm_num
  have hchord : L2 ((9 : ℝ), (-12 : ℝ)) = 15 := by
    apply L2_eval _ _ _ (by norm_num)
    norm_num
  have hpos := c9_F4_hook_pos
  have hnn : ¬ (L2 ((-(95/32) : ℝ), (1315/1248 : ℝ)) / (13/4) < 0) :=
    not_lt.mpr hpos.le
  rw [compute_max_error_ratio_eq]
  have hfold : cmerFold c9dr c9u0r c9bezF4 (1/4) =
      ⟨0, 0, L2 ((-(95/32) : ℝ), (1315/1248 : ℝ)) / (13/4), 1, (4, -3)⟩ := by
    rw [cmerFold, show c9dr.length - 1 = 2 from rfl,
      show List.range' 1 2 = [1, 2] from rfl]
    simp only [List.foldl_cons, List.foldl_nil]
    rw [show (⟨0, 0, 0, 0, c9bezF4.getD 0 0⟩ : CmerSt) =
      ⟨0, 0, 0, 0, (-5, 12)⟩ from by norm_num [c9bezF4]]
    simp only [cmerStep, compute_hook, hb, hb2]
    norm_num [c9dr, c9u0r, c9_curveF41, c9_curveF4P1, c9_curveF4P2,
      c9_curveF42, lensq, dot, hfire, hno, hchord, hpos.le, hpos, hnn,
      lt_irrefl, Prod.mk_sub_mk]
  rw [hfold]
  norm_num [hpos, hpos.le, not_le.mpr hpos]

theorem dot_self_pos (v : Pt) (h : v ≠ 0) : 0 < dot v v := by
  have h1 : v.1 ≠ 0 ∨ v.2 ≠ 0 := by
    by_contra hc
    push_neg at hc
    exact h (Prod.ext hc.1 hc.2)
  rcases h1 with h1 | h1
  · have := mul_self_pos.mpr h1
    have := mul_self_nonneg v.2
    unfold dot
    linarith
  · have := mul_self_pos.mpr h1
    have := mul_self_nonneg v.1
    unfold dot
    linarith

/-- `NewtonRaphsonRootFind` at a parameter whose curve point already equals
the target returns the parameter unchanged (zero gradient step, and the
safety blend loop exits immediately). -/
theorem newton_fixed (Q : Seg) (P : Pt) (u : ℝ) (h0 : 0 ≤ u) (h1 : u ≤ 1)
    (hQ : bezier_pt 3 Q u = P)
    (hv : bezier_pt 2 [(3 : ℝ) • (Q.getD 1 0 - Q.getD 0 0),
      (3 : ℝ) • (Q.getD 2 0 - Q.getD 1 0),
      (3 : ℝ) • (Q.getD 3 0 - Q.getD 2 0)] u ≠ 0) :
    NewtonRaphsonRootFind Q P u = u := by
  have hzero : (∀ w : Pt, dot 0 w = 0) := by
    intro w
    simp [dot]
  have hden : 0 < dot (bezier_pt 2 [(3 : ℝ) • (Q.getD 1 0 - Q.getD 0 0),
      (3 : ℝ) • (Q.getD 2 0 - Q.getD 1 0),
      (3 : ℝ) • (Q.getD 3 0 - Q.getD 2 0)] u)
      (bezier_pt 2 [(3 : ℝ) • (Q.getD 1 0 - Q.getD 0 0),
      (3 : ℝ) • (Q.getD 2 0 - Q.getD 1 0),
      (3 : ℝ) • (Q.getD 3 0 - Q.getD 2 0)] u) := dot_self_pos _ hv
  simp only [NewtonRaphsonRootFind, hQ, sub_self, hzero, isFiniteR,
    zero_div, sub_zero, add_zero, lensq]
  rw [if_pos hden, if_neg (by norm_num), if_neg (not_lt.mpr h0),
    if_neg (not_lt.mpr h1)]
  rw [show (12 : ℕ) = 11 + 1 from rfl]
  apply nrBlend_stop
  rw [hQ, sub_self]
  simp [lensq, hzero]

theorem c9_newtonRC : NewtonRaphsonRootFind c9bezRC (4, 0) (5/6) = 5/6 := by
  apply newton_fixed _ _ _ (by norm_num) (by norm_num) c9_curveRC1
  rw [show ([(3 : ℝ) • (c9bezRC.getD 1 0 - c9bezRC.getD 0 0),
      (3 : ℝ) • (c9bezRC.getD 2 0 - c9bezRC.getD 1 0),
      (3 : ℝ) • (c9bezRC.getD 3 0 - c9bezRC.getD 2 0)] : Seg) =
    [((144/5 : ℝ), (0 : ℝ)), ((-(9/5) : ℝ), (-(717/25) : ℝ)),
      ((0 : ℝ), (-(408/25) : ℝ))] from by
      norm_num [c9bezRC, Prod.ext_iff, Prod.smul_mk, smul_eq_mul,
        Prod.mk_sub_mk]]
  rw [bezier_pt2_eval]
  norm_num [Prod.ext_iff]

theorem c9_newtonF4 : NewtonRaphsonRootFind c9bezF4 (4, 0) (5/6) = 5/6 := by
  apply newton_fixed _ _ _ (by norm_num) (by norm_num) c9_curveF41
  rw [show ([(3 : ℝ) • (c9bezF4.getD 1 0 - c9bezF4.getD 0 0),
      (3 : ℝ) • (c9bezF4.getD 2 0 - c9bezF4.getD 1 0),
      (3 : ℝ) • (c9bezF4.getD 3 0 - c9bezF4.getD 2 0)] : Seg) =
    [((144/5 : ℝ), (-(11472/455) : ℝ)), ((-(9/5) : ℝ), (717/455 : ℝ)),
      ((0 : ℝ), (-(1944/91) : ℝ))] from by
      norm_num [c9bezF4, Prod.ext_iff, Prod.smul_mk, smul_eq_mul,
        Prod.mk_sub_mk]]
  rw [bezier_pt2_eval]
  norm_num [Prod.ext_iff]

theorem c9_reparamRC : reparameterize c9dr c9u0r c9bezRC = c9u0r := by
  simp only [reparameterize]
  rw [show c9dr.length = 3 from rfl, show List.range 3 = [0, 1, 2] from rfl]
  simp only [List.map_cons, List.map_nil]
  norm_num [c9dr, c9u0r]
  exact c9_newtonRC

theorem c9_reparamF4 : reparameterize c9dr c9u0r c9bezF4 = c9u0r := by
  simp only [reparameterize]
  rw [show c9dr.length = 3 from rfl, show List.range 3 = [0, 1, 2] from rfl]
  simp only [List.map_cons, List.map_nil]
  norm_num [c9dr, c9u0r]
  exact c9_newtonF4

theorem unit_vector_eval (x y m : ℝ) (hm : 0 < m) (h : x * x + y * y = m ^ 2) :
    unit_vector (x, y) = (x / m, y / m) := by
  rw [show unit_vector (x, y) =
    (x / Real.sqrt (x * x + y * y), y / Real.sqrt (x * x + y * y)) from rfl,
    h, Real.sqrt_sq hm.le]

theorem c9_rtRC : sp_darray_right_tangent c9dr c9e = ((0 : ℝ), (1 : ℝ)) := by
  rw [sp_darray_right_tangent, show c9dr.length = 3 from rfl,
    show (3 : ℕ) = 2 + 1 from rfl, rightTangentLoop]
  norm_num [c9dr, dot, c9e, Prod.mk_sub_mk]
  rw [unit_vector_eval 0 3 3 (by norm_num) (by norm_num)]
  norm_num

theorem c9_elRC :
    estimate_lengths c9dr c9u0r (1, 0) (0, 1) = c9bezRC := by
  simp only [estimate_lengths]
  rw [show c9dr.length = 3 from rfl, show List.range 3 = [0, 1, 2] from rfl]
  simp only [List.foldl_cons, List.foldl_nil]
  norm_num [c9dr, c9u0r, c9bezRC, B0, B1, B2, B3, dot, Prod.ext_iff,
    Prod.smul_mk, smul_eq_mul, Prod.mk_sub_mk, Prod.mk_add_mk]

theorem c9_gbRC :
    generate_bezier c9dr c9u0r (1, 0) (0, 0) c9e = c9bezRC := by
  have hc1 : ((((1 : ℝ), (0 : ℝ)) : Pt) = (0, 0)) = False := by
    simp [Prod.ext_iff]
  have hc2 : ((((0 : ℝ), (0 : ℝ)) : Pt) = (0, 0)) = True := by simp
  simp only [generate_bezier, hc1, hc2, if_true, if_false]
  rw [c9_rtRC, c9_elRC]

theorem c9_chordR : chord_length_parameterize c9dr = c9u0r := by
  have h1 : L2 ((9 : ℝ), (-12 : ℝ)) = 15 := by
    apply L2_eval _ _ _ (by norm_num)
    norm_num
  have h2 : L2 ((0 : ℝ), (-3 : ℝ)) = 3 := by
    apply L2_eval _ _ _ (by norm_num)
    norm_num
  simp only [chord_length_parameterize, chordRawU, c9dr]
  norm_num [h1, h2, Prod.mk_sub_mk, c9u0r, List.singleton_append]

theorem c9_fitStepRC :
    fitStep c9dr c9u0r (1, 0) (0, 0) c9e (1/4) =
      ⟨c9bezRC, c9u0r, -(L2 ((-(95/32) : ℝ), (-(193/96) : ℝ)) / (13/4)),
        0⟩ := by
  simp only [fitStep, c9_gbRC, c9_reparamRC, c9_cmerRC]

theorem c9_RC_step (n : ℕ) :
    fitFullF (n + 1) c9dr (1, 0) (0, 0) c9e 1 =
      fitFullF n c9dr (0, 0) (0, 0) c9e 1 := by
  have hH := c9_RC_hook_gt_one
  have hHpos := c9_RC_hook_pos
  have habs : ¬ |(-(L2 ((-(95/32) : ℝ), (-(193/96) : ℝ)) / (13/4)))| ≤ 1 := by
    rw [abs_neg, abs_of_pos hHpos]
    linarith
  have hneg : -(L2 ((-(95/32) : ℝ), (-(193/96) : ℝ)) / (13/4)) < 0 :=
    neg_lt_zero.mpr hHpos
  have hwin : ¬ (0 ≤ -(L2 ((-(95/32) : ℝ), (-(193/96) : ℝ)) / (13/4)) ∧
      -(L2 ((-(95/32) : ℝ), (-(193/96) : ℝ)) / (13/4)) ≤ 3) := by
    rintro ⟨hc, -⟩
    linarith
  rw [fitFullF]
  rw [if_neg (by norm_num [c9dr]), if_neg (by norm_num),
    if_neg (not_lt.mpr c9e_nonneg), if_neg (by norm_num [c9dr]),
    if_neg (by norm_num [c9dr])]
  simp only [c9_chordR, c9tol, c9_fitStepRC]
  rw [if_neg (by norm_num [c9u0r, c9dr]), if_neg habs, if_neg hwin]
  simp only [fitAfter]
  rw [if_neg habs,
    if_pos ⟨hneg, by simp, by simp [Prod.ext_iff]⟩]

theorem c9_ltR : sp_darray_left_tangent c9dr c9e = ((3/5 : ℝ), (-(4/5) : ℝ)) := by
  rw [sp_darray_left_tangent, show c9dr.length = 3 from rfl]
  show leftTangentLoop c9dr c9e (2 + 1) 1 = ((3/5 : ℝ), (-(4/5) : ℝ))
  rw [leftTangentLoop]
  norm_num [c9dr, dot, c9e, Prod.mk_sub_mk]
  rw [unit_vector_eval 9 (-12) 15 (by norm_num) (by norm_num)]
  norm_num

theorem c9_elF4A :
    estimate_lengths c9dr c9u0r ((3/5), -(4/5)) (0, 1) =
      [(-5, 12), (23/5, -(4/5)), (4, 5), (4, -3)] := by
  simp only [estimate_lengths]
  rw [show c9dr.length = 3 from rfl, show List.range 3 = [0, 1, 2] from rfl]
  simp only [List.foldl_cons, List.foldl_nil]
  norm_num [c9dr, c9u0r, B0, B1, B2, B3, dot, Prod.ext_iff,
    Prod.smul_mk, smul_eq_mul, Prod.mk_sub_mk, Prod.mk_add_mk]

theorem c9_biF4 :
    estimate_bi [(-5, 12), (23/5, -(4/5)), (4, 5), (4, -3)] 1 c9dr c9u0r =
      [(-5, 12), (248/5, -(179/5)), (4, 5), (4, -3)] := by
  rw [estimate_bi, if_neg (by norm_num)]
  rw [show c9dr.length = 3 from rfl, show List.range 3 = [0, 1, 2] from rfl]
  simp only [List.foldl_cons, List.foldl_nil]
  norm_num [c9dr, c9u0r, B0, B1, B2, B3, Prod.ext_iff,
    Prod.smul_mk, smul_eq_mul, Prod.mk_sub_mk, Prod.mk_add_mk, List.set]

set_option maxHeartbeats 2000000 in
theorem c9_elF4B :
    estimate_lengths c9dr c9u0r
      ((273/26330) * Real.sqrt 5266, -((239/26330) * Real.sqrt 5266))
      (0, 1) = c9bezF4 := by
  have hy0 : (0:ℝ) < Real.sqrt 5266 := Real.sqrt_pos.mpr (by norm_num)
  have hy2 : Real.sqrt 5266 * Real.sqrt 5266 = 5266 :=
    Real.mul_self_sqrt (by norm_num)
  simp only [estimate_lengths]
  rw [show c9dr.length = 3 from rfl, show List.range 3 = [0, 1, 2] from rfl]
  simp only [List.foldl_cons, List.foldl_nil]
  norm_num [c9dr, c9u0r, c9bezF4, B0, B1, B2, B3, dot, Prod.ext_iff,
    Prod.smul_mk, smul_eq_mul, Prod.mk_sub_mk, Prod.mk_add_mk]
  generalize hg : Real.sqrt 5266 = y at hy0 hy2
  have hy2p : y ^ 2 = 5266 := by nlinarith [hy2]
  have hy3 : y ^ 3 = 5266 * y := by
    rw [pow_succ, hy2p]
  have hy4 : y ^ 4 = 5266 ^ 2 := by
    rw [show (4 : ℕ) = 2 * 2 from rfl, pow_mul, hy2p]
  have hdet : (5 / 72 * (273 / 26330 * y) * (5 / 72 * (273 / 26330 * y)) +
          5 / 72 * (239 / 26330 * y) * (5 / 72 * (239 / 26330 * y))) *
        (625 / 5184) -
      5 / 72 * (239 / 26330 * y) * (25 / 72) *
        (5 / 72 * (239 / 26330 * y) * (25 / 72)) =
      5175625 / 15724191744 := by
    ring_nf
    rw [hy2p]
    norm_num
  split_ifs with h1 h2 h3 h4 h5 h6 h7
  all_goals try (exfalso; rw [hdet] at h1; norm_num at h1; done)
  · -- Cramer path, fallback condition true: refute it
    exfalso
    rcases h7 with hc | hc <;>
    · rw [div_lt_iff (by rw [hdet]; norm_num)] at hc
      nlinarith [hy2p, hy3, hy0]
  · -- main Cramer branch
    refine ⟨⟨?_, ?_⟩, ?_⟩ <;>
    · field_simp [h1]
      ring_nf
      rw [← mul_pow, mul_inv_cancel₀ (ne_of_gt hy0), one_pow]
      norm_num

theorem c9_uvF4 : unit_vector ((273/5 : ℝ), (-(239/5) : ℝ)) =
    ((273/26330) * Real.sqrt 5266, -((239/26330) * Real.sqrt 5266)) := by
  have hy0 : (0:ℝ) < Real.sqrt 5266 := Real.sqrt_pos.mpr (by norm_num)
  have hy2 : Real.sqrt 5266 * Real.sqrt 5266 = 5266 :=
    Real.mul_self_sqrt (by norm_num)
  rw [show unit_vector ((273/5 : ℝ), (-(239/5) : ℝ)) =
    ((273/5 : ℝ) / Real.sqrt ((273/5 : ℝ) * (273/5) + (-(239/5)) * (-(239/5))),
     (-(239/5) : ℝ) /
       Real.sqrt ((273/5 : ℝ) * (273/5) + (-(239/5)) * (-(239/5)))) from rfl]
  rw [show ((273/5 : ℝ)) * (273/5) + (-(239/5)) * (-(239/5)) = 5266 by
    norm_num]
  refine Prod.ext ?_ ?_
  · rw [div_eq_iff (ne_of_gt hy0)]
    simp only
    rw [mul_assoc, hy2]
    norm_num
  · rw [div_eq_iff (ne_of_gt hy0)]
    simp only
    rw [neg_mul, mul_assoc, hy2]
    norm_num

theorem c9_gbF4 :
    generate_bezier c9dr c9u0r (0, 0) (0, 0) c9e = c9bezF4 := by
  have hc2 : ((((0 : ℝ), (0 : ℝ)) : Pt) = (0, 0)) = True := by simp
  simp only [generate_bezier, hc2, if_true]
  rw [c9_ltR, c9_rtRC, c9_elF4A, c9_biF4]
  rw [show ([(-5, 12), (248/5, -(179/5)), (4, 5), (4, -3)] : Seg).getD 1 0 =
    ((248/5 : ℝ), (-(179/5) : ℝ)) from by norm_num]
  rw [show ([(-5, 12), (248/5, -(179/5)), (4, 5), (4, -3)] : Seg).getD 0 0 =
    ((-5 : ℝ), (12 : ℝ)) from by norm_num]
  rw [if_pos (show (((248/5 : ℝ), (-(179/5) : ℝ)) : Pt) ≠ (-5, 12) from by
    norm_num [Prod.ext_iff])]
  rw [show (((248/5 : ℝ), (-(179/5) : ℝ)) : Pt) - ((-5 : ℝ), (12 : ℝ)) =
    ((273/5 : ℝ), (-(239/5) : ℝ)) from by norm_num [Prod.ext_iff]]
  rw [c9_uvF4, c9_elF4B]

theorem c9_fitStepF4 :
    fitStep c9dr c9u0r (0, 0) (0, 0) c9e (1/4) =
      ⟨c9bezF4, c9u0r, -(L2 ((-(95/32) : ℝ), (1315/1248 : ℝ)) / (13/4)),
        0⟩ := by
  simp only [fitStep, c9_gbF4, c9_reparamF4, c9_cmerF4]

theorem c9_F4_step (n : ℕ) :
    fitFullF (n + 1) c9dr (0, 0) (0, 0) c9e 1 = some [c9bezF4] := by
  have hpos := c9_F4_hook_pos
  have hle := c9_F4_hook_le_one
  have habs : |(-(L2 ((-(95/32) : ℝ), (1315/1248 : ℝ)) / (13/4)))| ≤ 1 := by
    rw [abs_neg, abs_of_pos hpos]
    exact hle
  rw [fitFullF]
  rw [if_neg (by norm_num [c9dr]), if_neg (by norm_num),
    if_neg (not_lt.mpr c9e_nonneg), if_neg (by norm_num [c9dr]),
    if_neg (by norm_num [c9dr])]
  simp only [c9_chordR, c9tol, c9_fitStepF4]
  rw [if_neg (by norm_num [c9u0r, c9dr]), if_pos habs]

theorem c9_LC_step (n : ℕ) :
    fitFullF (n + 1) [((0 : ℝ), (0 : ℝ)), ((-5 : ℝ), (12 : ℝ))]
      (0, 0) (-1, 0) c9e 1 = some [c9segL] := by
  have hL : L2 ((-5 : ℝ), (12 : ℝ)) = 13 := by
    apply L2_eval _ _ _ (by norm_num)
    norm_num
  have hL0 : L2 (((-5 : ℝ), (12 : ℝ)) - 0) = 13 := by
    rw [sub_zero]
    exact hL
  rw [fitFullF]
  norm_num [isNaN, c9segL, Prod.ext_iff, Prod.smul_mk, smul_eq_mul,
    Prod.mk_sub_mk, Prod.mk_add_mk, hL, hL0, c9e]

/-- Chord parameters of the C9 input `c9d`. -/
noncomputable def c9u0F : List ℝ := [0, 13/31, 28/31, 1]

/-- Curve fitted in the first frame (tangents `c9t1` and estimated right). -/
noncomputable def c9bezF1 : Seg :=
  [(0, 0), (-(5164571369885/317721297384), 5164571369885/238290973038),
   (4, 699806208007/79430324346), (4, -3)]

/-- Reparameterized interior parameter `u[1]` of the first frame. -/
noncomputable def c9ua : ℝ := 3540063559917562256519641193/8053165645126599017392803275

/-- Reparameterized interior parameter `u[2]` of the first frame. -/
noncomputable def c9ub : ℝ := 420541618668548857410310826176/458128690844050816494633981175

/-- Parameters after the first frame's Newton refinement. -/
noncomputable def c9u21 : List ℝ := [0, c9ua, c9ub, 1]

theorem c9_chordF1 : chord_length_parameterize c9d = c9u0F := by
  have h1 : L2 ((-5 : ℝ), (12 : ℝ)) = 13 := by
    apply L2_eval _ _ _ (by norm_num)
    norm_num
  have h2 : L2 ((9 : ℝ), (-12 : ℝ)) = 15 := by
    apply L2_eval _ _ _ (by norm_num)
    norm_num
  have h3 : L2 ((0 : ℝ), (-3 : ℝ)) = 3 := by
    apply L2_eval _ _ _ (by norm_num)
    norm_num
  simp only [chord_length_parameterize, chordRawU, c9d]
  norm_num [h1, h2, h3, Prod.mk_sub_mk, c9u0F, List.singleton_append]

theorem c9_rtF1 : sp_darray_right_tangent c9d c9e = ((0 : ℝ), (1 : ℝ)) := by
  rw [sp_darray_right_tangent, show c9d.length = 4 from rfl]
  show rightTangentLoop c9d c9e (3 + 1) 2 = ((0 : ℝ), (1 : ℝ))
  rw [rightTangentLoop]
  norm_num [c9d, dot, c9e, Prod.mk_sub_mk]
  rw [unit_vector_eval 0 3 3 (by norm_num) (by norm_num)]
  norm_num

theorem c9_elF1 :
    estimate_lengths c9d c9u0F c9t1 (0, 1) = c9bezF1 := by
  simp only [estimate_lengths]
  rw [show c9d.length = 4 from rfl, show List.range 4 = [0, 1, 2, 3] from rfl]
  simp only [List.foldl_cons, List.foldl_nil]
  norm_num [c9d, c9u0F, c9t1, c9bezF1, B0, B1, B2, B3, dot, Prod.ext_iff,
    Prod.smul_mk, smul_eq_mul, Prod.mk_sub_mk, Prod.mk_add_mk]

theorem c9_gbF1 :
    generate_bezier c9d c9u0F c9t1 (0, 0) c9e = c9bezF1 := by
  have hc1 : (c9t1 = ((0 : ℝ), (0 : ℝ))) = False := by
    simp [c9t1, Prod.ext_iff]
  have hc2 : ((((0 : ℝ), (0 : ℝ)) : Pt) = (0, 0)) = True := by simp
  simp only [generate_bezier, hc1, hc2, if_true, if_false]
  rw [c9_rtF1, c9_elF1]

theorem newton_step (Q Q1 Q2 : Seg) (P : Pt) (u iu : ℝ)
    (hQ1 : Q1 = [(3 : ℝ) • (Q.getD 1 0 - Q.getD 0 0),
      (3 : ℝ) • (Q.getD 2 0 - Q.getD 1 0),
      (3 : ℝ) • (Q.getD 3 0 - Q.getD 2 0)])
    (hQ2 : Q2 = [(2 : ℝ) • (Q1.getD 1 0 - Q1.getD 0 0),
      (2 : ℝ) • (Q1.getD 2 0 - Q1.getD 1 0)])
    (hden : 0 < dot (bezier_pt 2 Q1 u) (bezier_pt 2 Q1 u) +
      dot (bezier_pt 3 Q u - P) (bezier_pt 1 Q2 u))
    (hiu : u - dot (bezier_pt 3 Q u - P) (bezier_pt 2 Q1 u) /
      (dot (bezier_pt 2 Q1 u) (bezier_pt 2 Q1 u) +
        dot (bezier_pt 3 Q u - P) (bezier_pt 1 Q2 u)) = iu)
    (h0 : ¬ iu < 0) (h1 : ¬ iu > 1)
    (hblend : ¬ lensq (bezier_pt 3 Q iu - P) >
      lensq (bezier_pt 3 Q u - P)) :
    NewtonRaphsonRootFind Q P u = iu := by
  subst hQ1
  subst hQ2
  simp only [NewtonRaphsonRootFind, lensq]
  rw [if_pos hden, hiu]
  rw [if_neg (by norm_num [isFiniteR])]
  rw [if_neg h0, if_neg h1]
  rw [show (12 : ℕ) = 11 + 1 from rfl]
  apply nrBlend_stop
  simpa [lensq] using hblend


theorem bezier_pt3_eval' (p0 p1 p2 p3 : Pt) (t : ℝ) :
    bezier_pt 3 [p0, p1, p2, p3] t =
      ((1 - t) ^ 3 * p0.1 + 3 * (1 - t) ^ 2 * t * p1.1
        + 3 * (1 - t) * t ^ 2 * p2.1 + t ^ 3 * p3.1,
       (1 - t) ^ 3 * p0.2 + 3 * (1 - t) ^ 2 * t * p1.2
        + 3 * (1 - t) * t ^ 2 * p2.2 + t ^ 3 * p3.2) := by
  obtain ⟨x0, y0⟩ := p0
  obtain ⟨x1, y1⟩ := p1
  obtain ⟨x2, y2⟩ := p2
  obtain ⟨x3, y3⟩ := p3
  exact bezier_pt3_eval x0 y0 x1 y1 x2 y2 x3 y3 t

theorem bezier_pt2_eval' (p0 p1 p2 : Pt) (t : ℝ) :
    bezier_pt 2 [p0, p1, p2] t =
      ((1 - t) ^ 2 * p0.1 + 2 * (1 - t) * t * p1.1 + t ^ 2 * p2.1,
       (1 - t) ^ 2 * p0.2 + 2 * (1 - t) * t * p1.2 + t ^ 2 * p2.2) := by
  obtain ⟨x0, y0⟩ := p0
  obtain ⟨x1, y1⟩ := p1
  obtain ⟨x2, y2⟩ := p2
  exact bezier_pt2_eval x0 y0 x1 y1 x2 y2 t

theorem bezier_pt1_eval' (p0 p1 : Pt) (t : ℝ) :
    bezier_pt 1 [p0, p1] t =
      ((1 - t) * p0.1 + t * p1.1, (1 - t) * p0.2 + t * p1.2) := by
  obtain ⟨x0, y0⟩ := p0
  obtain ⟨x1, y1⟩ := p1
  exact bezier_pt1_eval x0 y0 x1 y1 t

theorem c9_newtonF1a :
    NewtonRaphsonRootFind c9bezF1 (-5, 12) (13/31) = c9ua := by
  apply newton_step c9bezF1
    [((-(5164571369885/105907099128) : ℝ), (5164571369885/79430324346 : ℝ)),
     ((6435456559421/105907099128 : ℝ), (-(1532576372932/39715162173) : ℝ)),
     ((0 : ℝ), (-(938097181045/26476774782) : ℝ))]
    [((5800013964653/26476774782 : ℝ), (-(8229724115749/39715162173) : ℝ)),
     ((-(6435456559421/52953549564) : ℝ), (250861202729/39715162173 : ℝ))]
    (-5, 12) (13/31) c9ua
  · norm_num [c9bezF1, Prod.ext_iff, Prod.smul_mk, smul_eq_mul,
      Prod.mk_sub_mk]
  · norm_num [Prod.ext_iff, Prod.smul_mk, smul_eq_mul, Prod.mk_sub_mk]
  · norm_num [c9bezF1, c9ua, bezier_pt3_eval', bezier_pt2_eval',
      bezier_pt1_eval', dot, Prod.mk_sub_mk]
  · norm_num [c9bezF1, c9ua, bezier_pt3_eval', bezier_pt2_eval',
      bezier_pt1_eval', dot, Prod.mk_sub_mk]
  · norm_num [c9ua]
  · norm_num [c9ua]
  · norm_num [c9bezF1, c9ua, bezier_pt3_eval', lensq, dot, Prod.mk_sub_mk]

theorem c9_newtonF1b :
    NewtonRaphsonRootFind c9bezF1 (4, 0) (28/31) = c9ub := by
  apply newton_step c9bezF1
    [((-(5164571369885/105907099128) : ℝ), (5164571369885/79430324346 : ℝ)),
     ((6435456559421/105907099128 : ℝ), (-(1532576372932/39715162173) : ℝ)),
     ((0 : ℝ), (-(938097181045/26476774782) : ℝ))]
    [((5800013964653/26476774782 : ℝ), (-(8229724115749/39715162173) : ℝ)),
     ((-(6435456559421/52953549564) : ℝ), (250861202729/39715162173 : ℝ))]
    (4, 0) (28/31) c9ub
  · norm_num [c9bezF1, Prod.ext_iff, Prod.smul_mk, smul_eq_mul,
      Prod.mk_sub_mk]
  · norm_num [Prod.ext_iff, Prod.smul_mk, smul_eq_mul, Prod.mk_sub_mk]
  · norm_num [c9bezF1, c9ub, bezier_pt3_eval', bezier_pt2_eval',
      bezier_pt1_eval', dot, Prod.mk_sub_mk]
  · norm_num [c9bezF1, c9ub, bezier_pt3_eval', bezier_pt2_eval',
      bezier_pt1_eval', dot, Prod.mk_sub_mk]
  · norm_num [c9ub]
  · norm_num [c9ub]
  · norm_num [c9bezF1, c9ub, bezier_pt3_eval', lensq, dot, Prod.mk_sub_mk]

theorem c9_reparamF1 : reparameterize c9d c9u0F c9bezF1 = c9u21 := by
  simp only [reparameterize]
  rw [show c9d.length = 4 from rfl, show List.range 4 = [0, 1, 2, 3] from rfl]
  simp only [List.map_cons, List.map_nil]
  norm_num [c9d, c9u0F, c9u21]
  exact ⟨c9_newtonF1a, c9_newtonF1b⟩

theorem L2_nonneg (p : Pt) : 0 ≤ L2 p := Real.sqrt_nonneg _

theorem sqrt_le_of_sq (s q : ℝ) (hq : 0 ≤ q) (h : s ≤ q ^ 2) :
    Real.sqrt s ≤ q := by
  calc Real.sqrt s ≤ Real.sqrt (q ^ 2) := Real.sqrt_le_sqrt h
    _ = q := Real.sqrt_sq hq

theorem le_L2_of_sq' (p : Pt) (q : ℝ) (hq : 0 ≤ q)
    (h : q ^ 2 ≤ p.1 ^ 2 + p.2 ^ 2) : q ≤ L2 p := by
  rw [show L2 p = Real.sqrt (p.1 ^ 2 + p.2 ^ 2) from rfl]
  calc q = Real.sqrt (q ^ 2) := (Real.sqrt_sq hq).symm
    _ ≤ _ := Real.sqrt_le_sqrt h

theorem L2_le_of_sq' (p : Pt) (q : ℝ) (hq : 0 ≤ q)
    (h : p.1 ^ 2 + p.2 ^ 2 ≤ q ^ 2) : L2 p ≤ q := by
  rw [show L2 p = Real.sqrt (p.1 ^ 2 + p.2 ^ 2) from rfl]
  exact sqrt_le_of_sq _ _ hq h

theorem L2_lt_of_sq' (p : Pt) (q : ℝ) (hq : 0 < q)
    (h : p.1 ^ 2 + p.2 ^ 2 < q ^ 2) : L2 p < q := by
  rw [show L2 p = Real.sqrt (p.1 ^ 2 + p.2 ^ 2) from rfl]
  exact (Real.sqrt_lt' hq).mpr h

theorem hook_le_of_bounds (v c : Pt) (a b : ℝ) (ha : 0 ≤ a)
    (hv : L2 v ≤ a) (hb : 0 < b) (hc : b ≤ L2 c) :
    L2 v / (L2 c * (1/5) + 1/4) ≤ a / (b * (1/5) + 1/4) := by
  apply div_le_div ha hv (by linarith) (by linarith)

theorem le_hook_of_bounds (v c : Pt) (a b : ℝ) (hav : a ≤ L2 v)
    (hcb : L2 c ≤ b) :
    a / (b * (1/5) + 1/4) ≤ L2 v / (L2 c * (1/5) + 1/4) := by
  have h0 := L2_nonneg c
  apply div_le_div (L2_nonneg v) hav (by linarith) (by linarith)

theorem c9_cmerF1 :
    compute_max_error_ratio c9d c9u21 c9bezF1 (1/4) =
      (-(L2 ((49718738091808995215360943452036920754967081079508805808477488538293668029013459143367639691331/14274248799178439116513589843567515266246977433352497508444341418368997194410743950405051000000 : ℝ), (-(199270580077403367376151989127144445158004380546575945773314779152791505733345487185642765273/51469647112422256429736501839786713700409774399107563131409884922003595652923355590402828125) : ℝ)) / (L2 ((-(757297756787352886729593181167160810154692470854935045522086404779606281072964465790234616929/148690091658108740797016560870494950690072681597421849046295223108010387441778582816719281250) : ℝ), (66247061489064557276839139714202599276172719795436363669087032401186348605683950874173336608/5718849679158028492192944648865190411156641599900840347934431658000399516991483954489203125 : ℝ)) * (1/5) + 1/4)), 0) := by
  have hb1 : (0.5 : ℝ) * (c9u21.getD 0 0 + c9u21.getD 1 0) = (3540063559917562256519641193/16106331290253198034785606550 : ℝ) := by
    norm_num [c9u21, c9ua]
  have hb2 : (0.5 : ℝ) * (c9u21.getD 1 0 + c9u21.getD 2 0) = (6462575483893227482530377161294779591211235859558716217/9520996733295831561623468097675768917811787748920847350 : ℝ) := by
    norm_num [c9u21, c9ua, c9ub]
  have hb3 : (0.5 : ℝ) * (c9u21.getD 2 0 + c9u21.getD 3 0) = (878670309512599673904944807351/916257381688101632989267962350 : ℝ) := by
    norm_num [c9u21, c9ub]
  have hcv1 : bezier_pt 3 c9bezF1 c9ua = ((-(757297756787352886729593181167160810154692470854935045522086404779606281072964465790234616929/148690091658108740797016560870494950690072681597421849046295223108010387441778582816719281250) : ℝ), (66247061489064557276839139714202599276172719795436363669087032401186348605683950874173336608/5718849679158028492192944648865190411156641599900840347934431658000399516991483954489203125 : ℝ)) := by
    simp only [c9bezF1, c9ua, bezier_pt3_eval']
    norm_num
  have hcv2 : bezier_pt 3 c9bezF1 c9ub = ((49579400140638422407110760706717816698644450545527362550454143521182914480262508076195436215804264/13687199880176169784839901534561490885277329873453588393576211764419118863763614977220181339078125 : ℝ), (-(178854703810909834395399026412321220895822281016674742002099538057871421185048577143523951075104/1955314268596595683548557362080212983611047124779084056225173109202731266251944996745740191296875) : ℝ)) := by
    simp only [c9bezF1, c9ub, bezier_pt3_eval']
    norm_num
  have hcv3 : bezier_pt 3 c9bezF1 1 = ((4 : ℝ), (-3 : ℝ)) := by
    simp only [c9bezF1, bezier_pt3_eval']
    norm_num
  have hcp1 : bezier_pt 3 c9bezF1 (3540063559917562256519641193/16106331290253198034785606550 : ℝ) = ((-(86069030417601933778381416148060639642392319680545687993537635967714769520515753501298901303923/14274248799178439116513589843567515266246977433352497508444341418368997194410743950405051000000) : ℝ), (497382356778193875121928117841056141900781619626039582284206424958130074458923266119422780009/51469647112422256429736501839786713700409774399107563131409884922003595652923355590402828125 : ℝ)) := by
    simp only [c9bezF1, bezier_pt3_eval']
    norm_num
  have hcp2 : bezier_pt 3 c9bezF1 (6462575483893227482530377161294779591211235859558716217/9520996733295831561623468097675768917811787748920847350 : ℝ) = ((-(381980200147603708476016354426849796251795268889886990621844061012592925325053194672385944493453407658866766947034038061138756379095685419459386951509708617552850602863051969/982854821427524431491323670917977418088850366278689702615424858799880143916770013532816678749102279215235563204470132253355862214904539405513812973841508073605227263001000000) : ℝ), (181480716835211232718925711234026138334965482704641821971566243498727268497211874322720169014984834601765207928178442154790091815506131413444285934864869176157735111706841/24108487574262275105262060216787122696449430099065190900103631740577907768759076077629922457542736440719082692417340371206727389494322493267116684012988325981289915203125 : ℝ)) := by
    simp only [c9bezF1, bezier_pt3_eval']
    norm_num
  have hcp3 : bezier_pt 3 c9bezF1 (878670309512599673904944807351/916257381688101632989267962350 : ℝ) = ((3417780053526399347713659129124609447113910934830141808432581073730087757223736540304722568495970137/875980792331274866229753698211935416657749111901029657188877552922823607280871358542091605701000000 : ℝ), (-(1724788048191925724028351425735104073215104954311531218255944490067133142093749974335242092562511/1117322439198054676313461349760121704920598357016619460700098919544417866429682855283280109312500) : ℝ)) := by
    simp only [c9bezF1, bezier_pt3_eval']
    norm_num
  have hfire1 : ¬ (L2 ((49718738091808995215360943452036920754967081079508805808477488538293668029013459143367639691331/14274248799178439116513589843567515266246977433352497508444341418368997194410743950405051000000 : ℝ), (-(199270580077403367376151989127144445158004380546575945773314779152791505733345487185642765273/51469647112422256429736501839786713700409774399107563131409884922003595652923355590402828125) : ℝ)) < 1/4) := by
    push_neg
    apply le_L2_of_sq' _ _ (by norm_num)
    norm_num
  have hfire2 : ¬ (L2 ((-(13632643726515078628752848442803336854161338111883781828351275223686725661598226522580675282457877703429672263012006206296084314494293445101651040431001625120368669626192807/39314192857100977259652946836719096723554014651147588104616994351995205756670800541312667149964091168609422528178805290134234488596181576220552518953660322944209090520040000) : ℝ), (-(12025207015792958283881729675994463768601505542685916247560398147789570929423382637714319239608566353925083701141817413625705815105154127219063229431493329011670224849639/6750376520793437029473376860700394355005840427738253452029016887361814175252541301736378288111966203401343153876855303937883669058410298114792671523636731274761176256875) : ℝ)) < 1/4) := by
    push_neg
    apply le_L2_of_sq' _ _ (by norm_num)
    norm_num
  have hno3 : L2 ((-(79277664363420098226607390085768479441790293571206892440293375206587279293593564782285398188233689/875980792331274866229753698211935416657749111901029657188877552922823607280871358542091605701000000) : ℝ), (-(16078681857913701883682245160191830952192630527135293563626300862198445225517314414794401993881/7821257074386382734194229448320851934444188499116336224900692436810925065007779986982960765187500) : ℝ)) < 1/4 := by
    apply L2_lt_of_sq' _ _ (by norm_num)
    norm_num
  have hv1lo : (26/5 : ℝ) ≤ L2 ((49718738091808995215360943452036920754967081079508805808477488538293668029013459143367639691331/14274248799178439116513589843567515266246977433352497508444341418368997194410743950405051000000 : ℝ), (-(199270580077403367376151989127144445158004380546575945773314779152791505733345487185642765273/51469647112422256429736501839786713700409774399107563131409884922003595652923355590402828125) : ℝ)) := by
    apply le_L2_of_sq' _ _ (by norm_num)
    norm_num
  have hc1hi : L2 ((-(757297756787352886729593181167160810154692470854935045522086404779606281072964465790234616929/148690091658108740797016560870494950690072681597421849046295223108010387441778582816719281250) : ℝ), (66247061489064557276839139714202599276172719795436363669087032401186348605683950874173336608/5718849679158028492192944648865190411156641599900840347934431658000399516991483954489203125 : ℝ)) ≤ 127/10 := by
    apply L2_le_of_sq' _ _ (by norm_num)
    norm_num
  have hv2hi : L2 ((-(13632643726515078628752848442803336854161338111883781828351275223686725661598226522580675282457877703429672263012006206296084314494293445101651040431001625120368669626192807/39314192857100977259652946836719096723554014651147588104616994351995205756670800541312667149964091168609422528178805290134234488596181576220552518953660322944209090520040000) : ℝ), (-(12025207015792958283881729675994463768601505542685916247560398147789570929423382637714319239608566353925083701141817413625705815105154127219063229431493329011670224849639/6750376520793437029473376860700394355005840427738253452029016887361814175252541301736378288111966203401343153876855303937883669058410298114792671523636731274761176256875) : ℝ)) ≤ 91/50 := by
    apply L2_le_of_sq' _ _ (by norm_num)
    norm_num
  have hc2lo : (29/2 : ℝ) ≤ L2 ((53537621211888273195829276658588103362866789661748580569393535711259435491832280129372575679721455770427555428454883931153586142515486156731384933386379352053657221043166573/6142842633922027696820772943237358863055314789241810641346405367499250899479812584580104242181889245095222270027938326583474138843153371284461331086509425460032670393756250 : ℝ), (-(394068579147545774131207940909136152296740504736239085546027593617931603550014369398125958305154486866344449707555329890219122585790567954318257553713554910753903705744128/33751882603967185147366884303501971775029202138691267260145084436809070876262706508681891440559831017006715769384276519689418345292051490573963357618183656373805881284375) : ℝ)) := by
    apply le_L2_of_sq' _ _ (by norm_num)
    norm_num
  have hpos1 : 0 < L2 ((49718738091808995215360943452036920754967081079508805808477488538293668029013459143367639691331/14274248799178439116513589843567515266246977433352497508444341418368997194410743950405051000000 : ℝ), (-(199270580077403367376151989127144445158004380546575945773314779152791505733345487185642765273/51469647112422256429736501839786713700409774399107563131409884922003595652923355590402828125) : ℝ)) / (L2 ((-(757297756787352886729593181167160810154692470854935045522086404779606281072964465790234616929/148690091658108740797016560870494950690072681597421849046295223108010387441778582816719281250) : ℝ), (66247061489064557276839139714202599276172719795436363669087032401186348605683950874173336608/5718849679158028492192944648865190411156641599900840347934431658000399516991483954489203125 : ℝ)) * (1/5) + 1/4) := by
    have h0 := L2_nonneg ((-(757297756787352886729593181167160810154692470854935045522086404779606281072964465790234616929/148690091658108740797016560870494950690072681597421849046295223108010387441778582816719281250) : ℝ), (66247061489064557276839139714202599276172719795436363669087032401186348605683950874173336608/5718849679158028492192944648865190411156641599900840347934431658000399516991483954489203125 : ℝ))
    apply div_pos (by linarith) (by linarith)
  have hnn1 : ¬ (L2 ((49718738091808995215360943452036920754967081079508805808477488538293668029013459143367639691331/14274248799178439116513589843567515266246977433352497508444341418368997194410743950405051000000 : ℝ), (-(199270580077403367376151989127144445158004380546575945773314779152791505733345487185642765273/51469647112422256429736501839786713700409774399107563131409884922003595652923355590402828125) : ℝ)) / (L2 ((-(757297756787352886729593181167160810154692470854935045522086404779606281072964465790234616929/148690091658108740797016560870494950690072681597421849046295223108010387441778582816719281250) : ℝ), (66247061489064557276839139714202599276172719795436363669087032401186348605683950874173336608/5718849679158028492192944648865190411156641599900840347934431658000399516991483954489203125 : ℝ)) * (1/5) + 1/4) < 0) := not_lt.mpr hpos1.le
  have hcmp : ¬ (L2 ((49718738091808995215360943452036920754967081079508805808477488538293668029013459143367639691331/14274248799178439116513589843567515266246977433352497508444341418368997194410743950405051000000 : ℝ), (-(199270580077403367376151989127144445158004380546575945773314779152791505733345487185642765273/51469647112422256429736501839786713700409774399107563131409884922003595652923355590402828125) : ℝ)) / (L2 ((-(757297756787352886729593181167160810154692470854935045522086404779606281072964465790234616929/148690091658108740797016560870494950690072681597421849046295223108010387441778582816719281250) : ℝ), (66247061489064557276839139714202599276172719795436363669087032401186348605683950874173336608/5718849679158028492192944648865190411156641599900840347934431658000399516991483954489203125 : ℝ)) * (1/5) + 1/4) < L2 ((-(13632643726515078628752848442803336854161338111883781828351275223686725661598226522580675282457877703429672263012006206296084314494293445101651040431001625120368669626192807/39314192857100977259652946836719096723554014651147588104616994351995205756670800541312667149964091168609422528178805290134234488596181576220552518953660322944209090520040000) : ℝ), (-(12025207015792958283881729675994463768601505542685916247560398147789570929423382637714319239608566353925083701141817413625705815105154127219063229431493329011670224849639/6750376520793437029473376860700394355005840427738253452029016887361814175252541301736378288111966203401343153876855303937883669058410298114792671523636731274761176256875) : ℝ)) / (L2 ((53537621211888273195829276658588103362866789661748580569393535711259435491832280129372575679721455770427555428454883931153586142515486156731384933386379352053657221043166573/6142842633922027696820772943237358863055314789241810641346405367499250899479812584580104242181889245095222270027938326583474138843153371284461331086509425460032670393756250 : ℝ), (-(394068579147545774131207940909136152296740504736239085546027593617931603550014369398125958305154486866344449707555329890219122585790567954318257553713554910753903705744128/33751882603967185147366884303501971775029202138691267260145084436809070876262706508681891440559831017006715769384276519689418345292051490573963357618183656373805881284375) : ℝ)) * (1/5) + 1/4)) := by
    push_neg
    calc L2 ((-(13632643726515078628752848442803336854161338111883781828351275223686725661598226522580675282457877703429672263012006206296084314494293445101651040431001625120368669626192807/39314192857100977259652946836719096723554014651147588104616994351995205756670800541312667149964091168609422528178805290134234488596181576220552518953660322944209090520040000) : ℝ), (-(12025207015792958283881729675994463768601505542685916247560398147789570929423382637714319239608566353925083701141817413625705815105154127219063229431493329011670224849639/6750376520793437029473376860700394355005840427738253452029016887361814175252541301736378288111966203401343153876855303937883669058410298114792671523636731274761176256875) : ℝ)) / (L2 ((53537621211888273195829276658588103362866789661748580569393535711259435491832280129372575679721455770427555428454883931153586142515486156731384933386379352053657221043166573/6142842633922027696820772943237358863055314789241810641346405367499250899479812584580104242181889245095222270027938326583474138843153371284461331086509425460032670393756250 : ℝ), (-(394068579147545774131207940909136152296740504736239085546027593617931603550014369398125958305154486866344449707555329890219122585790567954318257553713554910753903705744128/33751882603967185147366884303501971775029202138691267260145084436809070876262706508681891440559831017006715769384276519689418345292051490573963357618183656373805881284375) : ℝ)) * (1/5) + 1/4) ≤ (91/50) / ((29/2) * (1/5) + 1/4) :=
          hook_le_of_bounds _ _ _ _ (by norm_num) hv2hi (by norm_num) hc2lo
      _ ≤ (26/5) / ((127/10) * (1/5) + 1/4) := by norm_num
      _ ≤ L2 ((49718738091808995215360943452036920754967081079508805808477488538293668029013459143367639691331/14274248799178439116513589843567515266246977433352497508444341418368997194410743950405051000000 : ℝ), (-(199270580077403367376151989127144445158004380546575945773314779152791505733345487185642765273/51469647112422256429736501839786713700409774399107563131409884922003595652923355590402828125) : ℝ)) / (L2 ((-(757297756787352886729593181167160810154692470854935045522086404779606281072964465790234616929/148690091658108740797016560870494950690072681597421849046295223108010387441778582816719281250) : ℝ), (66247061489064557276839139714202599276172719795436363669087032401186348605683950874173336608/5718849679158028492192944648865190411156641599900840347934431658000399516991483954489203125 : ℝ)) * (1/5) + 1/4) := le_hook_of_bounds _ _ _ _ hv1lo hc1hi
  have hfin : ¬ (L2 ((49718738091808995215360943452036920754967081079508805808477488538293668029013459143367639691331/14274248799178439116513589843567515266246977433352497508444341418368997194410743950405051000000 : ℝ), (-(199270580077403367376151989127144445158004380546575945773314779152791505733345487185642765273/51469647112422256429736501839786713700409774399107563131409884922003595652923355590402828125) : ℝ)) / (L2 ((-(757297756787352886729593181167160810154692470854935045522086404779606281072964465790234616929/148690091658108740797016560870494950690072681597421849046295223108010387441778582816719281250) : ℝ), (66247061489064557276839139714202599276172719795436363669087032401186348605683950874173336608/5718849679158028492192944648865190411156641599900840347934431658000399516991483954489203125 : ℝ)) * (1/5) + 1/4) ≤ Real.sqrt (803619625618929073917307545916483000252925740920233487486108182677311146336980410032624610989783893344444201680840654263998189382430453832403038230176307935754450589783676841354781981/4421748671459355709422944928423319353751941659702493827933785874532567993050487876423754341033781851038628526232801666581065524124501309644631519919210602379516818479751873103320312500 : ℝ) / (1/4)) := by
    push_neg
    have hsq : Real.sqrt (803619625618929073917307545916483000252925740920233487486108182677311146336980410032624610989783893344444201680840654263998189382430453832403038230176307935754450589783676841354781981/4421748671459355709422944928423319353751941659702493827933785874532567993050487876423754341033781851038628526232801666581065524124501309644631519919210602379516818479751873103320312500 : ℝ) ≤ 43/100 := by
      apply sqrt_le_of_sq _ _ (by norm_num)
      norm_num
    calc Real.sqrt (803619625618929073917307545916483000252925740920233487486108182677311146336980410032624610989783893344444201680840654263998189382430453832403038230176307935754450589783676841354781981/4421748671459355709422944928423319353751941659702493827933785874532567993050487876423754341033781851038628526232801666581065524124501309644631519919210602379516818479751873103320312500 : ℝ) / (1/4) ≤ (43/100) / (1/4) := by
          apply div_le_div (by norm_num) hsq (by norm_num) le_rfl
      _ < (26/5) / ((127/10) * (1/5) + 1/4) := by norm_num
      _ ≤ L2 ((49718738091808995215360943452036920754967081079508805808477488538293668029013459143367639691331/14274248799178439116513589843567515266246977433352497508444341418368997194410743950405051000000 : ℝ), (-(199270580077403367376151989127144445158004380546575945773314779152791505733345487185642765273/51469647112422256429736501839786713700409774399107563131409884922003595652923355590402828125) : ℝ)) / (L2 ((-(757297756787352886729593181167160810154692470854935045522086404779606281072964465790234616929/148690091658108740797016560870494950690072681597421849046295223108010387441778582816719281250) : ℝ), (66247061489064557276839139714202599276172719795436363669087032401186348605683950874173336608/5718849679158028492192944648865190411156641599900840347934431658000399516991483954489203125 : ℝ)) * (1/5) + 1/4) := le_hook_of_bounds _ _ _ _ hv1lo hc1hi
  have hfin2 : ¬ (L2 ((49718738091808995215360943452036920754967081079508805808477488538293668029013459143367639691331/14274248799178439116513589843567515266246977433352497508444341418368997194410743950405051000000 : ℝ), (-(199270580077403367376151989127144445158004380546575945773314779152791505733345487185642765273/51469647112422256429736501839786713700409774399107563131409884922003595652923355590402828125) : ℝ)) / (L2 ((-(757297756787352886729593181167160810154692470854935045522086404779606281072964465790234616929/148690091658108740797016560870494950690072681597421849046295223108010387441778582816719281250) : ℝ), (66247061489064557276839139714202599276172719795436363669087032401186348605683950874173336608/5718849679158028492192944648865190411156641599900840347934431658000399516991483954489203125 : ℝ)) * (1/5) + 1/4) ≤
      Real.sqrt (803619625618929073917307545916483000252925740920233487486108182677311146336980410032624610989783893344444201680840654263998189382430453832403038230176307935754450589783676841354781981 : ℝ) / Real.sqrt (4421748671459355709422944928423319353751941659702493827933785874532567993050487876423754341033781851038628526232801666581065524124501309644631519919210602379516818479751873103320312500 : ℝ) / (1/4)) := by
    rw [← Real.sqrt_div (by norm_num : (0 : ℝ) ≤ (803619625618929073917307545916483000252925740920233487486108182677311146336980410032624610989783893344444201680840654263998189382430453832403038230176307935754450589783676841354781981 : ℝ))]
    exact hfin
  rw [compute_max_error_ratio_eq]
  have hfold : cmerFold c9d c9u21 c9bezF1 (1/4) =
      ⟨(803619625618929073917307545916483000252925740920233487486108182677311146336980410032624610989783893344444201680840654263998189382430453832403038230176307935754450589783676841354781981/4421748671459355709422944928423319353751941659702493827933785874532567993050487876423754341033781851038628526232801666581065524124501309644631519919210602379516818479751873103320312500 : ℝ), 1, L2 ((49718738091808995215360943452036920754967081079508805808477488538293668029013459143367639691331/14274248799178439116513589843567515266246977433352497508444341418368997194410743950405051000000 : ℝ), (-(199270580077403367376151989127144445158004380546575945773314779152791505733345487185642765273/51469647112422256429736501839786713700409774399107563131409884922003595652923355590402828125) : ℝ)) / (L2 ((-(757297756787352886729593181167160810154692470854935045522086404779606281072964465790234616929/148690091658108740797016560870494950690072681597421849046295223108010387441778582816719281250) : ℝ), (66247061489064557276839139714202599276172719795436363669087032401186348605683950874173336608/5718849679158028492192944648865190411156641599900840347934431658000399516991483954489203125 : ℝ)) * (1/5) + 1/4), 1, (4, -3)⟩ := by
    rw [cmerFold, show c9d.length - 1 = 3 from rfl,
      show List.range' 1 3 = [1, 2, 3] from rfl]
    simp only [List.foldl_cons, List.foldl_nil]
    rw [show (⟨0, 0, 0, 0, c9bezF1.getD 0 0⟩ : CmerSt) =
      ⟨0, 0, 0, 0, (0, 0)⟩ from by norm_num [c9bezF1]]
    simp only [cmerStep, compute_hook, hb1, hb2, hb3]
    norm_num [c9d, c9u21, hcv1, hcv2, hcv3, hcp1, hcp2, hcp3, lensq, dot,
      hfire1, hfire2, hno3, hpos1, hnn1, hcmp, lt_irrefl, Prod.mk_sub_mk,
      Prod.mk_add_mk, Prod.smul_mk, smul_eq_mul]
  rw [hfold]
  norm_num [hfin, hfin2]

theorem c9_fitStepF1 :
    fitStep c9d c9u0F c9t1 (0, 0) c9e (1/4) =
      ⟨c9bezF1, c9u21, -(L2 ((49718738091808995215360943452036920754967081079508805808477488538293668029013459143367639691331/14274248799178439116513589843567515266246977433352497508444341418368997194410743950405051000000 : ℝ), (-(199270580077403367376151989127144445158004380546575945773314779152791505733345487185642765273/51469647112422256429736501839786713700409774399107563131409884922003595652923355590402828125) : ℝ)) / (L2 ((-(757297756787352886729593181167160810154692470854935045522086404779606281072964465790234616929/148690091658108740797016560870494950690072681597421849046295223108010387441778582816719281250) : ℝ), (66247061489064557276839139714202599276172719795436363669087032401186348605683950874173336608/5718849679158028492192944648865190411156641599900840347934431658000399516991483954489203125 : ℝ)) * (1/5) + 1/4)), 0⟩ := by
  simp only [fitStep, c9_gbF1, c9_reparamF1, c9_cmerF1]

theorem c9_F1_hook_pos : 0 < L2 ((49718738091808995215360943452036920754967081079508805808477488538293668029013459143367639691331/14274248799178439116513589843567515266246977433352497508444341418368997194410743950405051000000 : ℝ), (-(199270580077403367376151989127144445158004380546575945773314779152791505733345487185642765273/51469647112422256429736501839786713700409774399107563131409884922003595652923355590402828125) : ℝ)) / (L2 ((-(757297756787352886729593181167160810154692470854935045522086404779606281072964465790234616929/148690091658108740797016560870494950690072681597421849046295223108010387441778582816719281250) : ℝ), (66247061489064557276839139714202599276172719795436363669087032401186348605683950874173336608/5718849679158028492192944648865190411156641599900840347934431658000399516991483954489203125 : ℝ)) * (1/5) + 1/4) := by
  have h0 := L2_nonneg ((-(757297756787352886729593181167160810154692470854935045522086404779606281072964465790234616929/148690091658108740797016560870494950690072681597421849046295223108010387441778582816719281250) : ℝ), (66247061489064557276839139714202599276172719795436363669087032401186348605683950874173336608/5718849679158028492192944648865190411156641599900840347934431658000399516991483954489203125 : ℝ))
  have hv1lo : (26/5 : ℝ) ≤ L2 ((49718738091808995215360943452036920754967081079508805808477488538293668029013459143367639691331/14274248799178439116513589843567515266246977433352497508444341418368997194410743950405051000000 : ℝ), (-(199270580077403367376151989127144445158004380546575945773314779152791505733345487185642765273/51469647112422256429736501839786713700409774399107563131409884922003595652923355590402828125) : ℝ)) := by
    apply le_L2_of_sq' _ _ (by norm_num)
    norm_num
  apply div_pos (by linarith) (by linarith)

theorem c9_F1_hook_gt_one : 1 < L2 ((49718738091808995215360943452036920754967081079508805808477488538293668029013459143367639691331/14274248799178439116513589843567515266246977433352497508444341418368997194410743950405051000000 : ℝ), (-(199270580077403367376151989127144445158004380546575945773314779152791505733345487185642765273/51469647112422256429736501839786713700409774399107563131409884922003595652923355590402828125) : ℝ)) / (L2 ((-(757297756787352886729593181167160810154692470854935045522086404779606281072964465790234616929/148690091658108740797016560870494950690072681597421849046295223108010387441778582816719281250) : ℝ), (66247061489064557276839139714202599276172719795436363669087032401186348605683950874173336608/5718849679158028492192944648865190411156641599900840347934431658000399516991483954489203125 : ℝ)) * (1/5) + 1/4) := by
  have hv1lo : (26/5 : ℝ) ≤ L2 ((49718738091808995215360943452036920754967081079508805808477488538293668029013459143367639691331/14274248799178439116513589843567515266246977433352497508444341418368997194410743950405051000000 : ℝ), (-(199270580077403367376151989127144445158004380546575945773314779152791505733345487185642765273/51469647112422256429736501839786713700409774399107563131409884922003595652923355590402828125) : ℝ)) := by
    apply le_L2_of_sq' _ _ (by norm_num)
    norm_num
  have hc1hi : L2 ((-(757297756787352886729593181167160810154692470854935045522086404779606281072964465790234616929/148690091658108740797016560870494950690072681597421849046295223108010387441778582816719281250) : ℝ), (66247061489064557276839139714202599276172719795436363669087032401186348605683950874173336608/5718849679158028492192944648865190411156641599900840347934431658000399516991483954489203125 : ℝ)) ≤ 127/10 := by
    apply L2_le_of_sq' _ _ (by norm_num)
    norm_num
  calc (1 : ℝ) < (26/5) / ((127/10) * (1/5) + 1/4) := by norm_num
    _ ≤ L2 ((49718738091808995215360943452036920754967081079508805808477488538293668029013459143367639691331/14274248799178439116513589843567515266246977433352497508444341418368997194410743950405051000000 : ℝ), (-(199270580077403367376151989127144445158004380546575945773314779152791505733345487185642765273/51469647112422256429736501839786713700409774399107563131409884922003595652923355590402828125) : ℝ)) / (L2 ((-(757297756787352886729593181167160810154692470854935045522086404779606281072964465790234616929/148690091658108740797016560870494950690072681597421849046295223108010387441778582816719281250) : ℝ), (66247061489064557276839139714202599276172719795436363669087032401186348605683950874173336608/5718849679158028492192944648865190411156641599900840347934431658000399516991483954489203125 : ℝ)) * (1/5) + 1/4) := le_hook_of_bounds _ _ _ _ hv1lo hc1hi

theorem c9_F1_step (n : ℕ) :
    fitFullF (n + 1) c9d c9t1 (0, 0) c9e 2 =
      fitFullF n c9d (0, 0) (0, 0) c9e 2 := by
  have hpos := c9_F1_hook_pos
  have hgt := c9_F1_hook_gt_one
  have habs : ¬ |(-(L2 ((49718738091808995215360943452036920754967081079508805808477488538293668029013459143367639691331/14274248799178439116513589843567515266246977433352497508444341418368997194410743950405051000000 : ℝ), (-(199270580077403367376151989127144445158004380546575945773314779152791505733345487185642765273/51469647112422256429736501839786713700409774399107563131409884922003595652923355590402828125) : ℝ)) / (L2 ((-(757297756787352886729593181167160810154692470854935045522086404779606281072964465790234616929/148690091658108740797016560870494950690072681597421849046295223108010387441778582816719281250) : ℝ), (66247061489064557276839139714202599276172719795436363669087032401186348605683950874173336608/5718849679158028492192944648865190411156641599900840347934431658000399516991483954489203125 : ℝ)) * (1/5) + 1/4)))| ≤ 1 := by
    rw [abs_neg, abs_of_pos hpos]
    linarith
  have hneg : -(L2 ((49718738091808995215360943452036920754967081079508805808477488538293668029013459143367639691331/14274248799178439116513589843567515266246977433352497508444341418368997194410743950405051000000 : ℝ), (-(199270580077403367376151989127144445158004380546575945773314779152791505733345487185642765273/51469647112422256429736501839786713700409774399107563131409884922003595652923355590402828125) : ℝ)) / (L2 ((-(757297756787352886729593181167160810154692470854935045522086404779606281072964465790234616929/148690091658108740797016560870494950690072681597421849046295223108010387441778582816719281250) : ℝ), (66247061489064557276839139714202599276172719795436363669087032401186348605683950874173336608/5718849679158028492192944648865190411156641599900840347934431658000399516991483954489203125 : ℝ)) * (1/5) + 1/4)) < 0 := neg_lt_zero.mpr hpos
  have hwin : ¬ (0 ≤ -(L2 ((49718738091808995215360943452036920754967081079508805808477488538293668029013459143367639691331/14274248799178439116513589843567515266246977433352497508444341418368997194410743950405051000000 : ℝ), (-(199270580077403367376151989127144445158004380546575945773314779152791505733345487185642765273/51469647112422256429736501839786713700409774399107563131409884922003595652923355590402828125) : ℝ)) / (L2 ((-(757297756787352886729593181167160810154692470854935045522086404779606281072964465790234616929/148690091658108740797016560870494950690072681597421849046295223108010387441778582816719281250) : ℝ), (66247061489064557276839139714202599276172719795436363669087032401186348605683950874173336608/5718849679158028492192944648865190411156641599900840347934431658000399516991483954489203125 : ℝ)) * (1/5) + 1/4)) ∧ -(L2 ((49718738091808995215360943452036920754967081079508805808477488538293668029013459143367639691331/14274248799178439116513589843567515266246977433352497508444341418368997194410743950405051000000 : ℝ), (-(199270580077403367376151989127144445158004380546575945773314779152791505733345487185642765273/51469647112422256429736501839786713700409774399107563131409884922003595652923355590402828125) : ℝ)) / (L2 ((-(757297756787352886729593181167160810154692470854935045522086404779606281072964465790234616929/148690091658108740797016560870494950690072681597421849046295223108010387441778582816719281250) : ℝ), (66247061489064557276839139714202599276172719795436363669087032401186348605683950874173336608/5718849679158028492192944648865190411156641599900840347934431658000399516991483954489203125 : ℝ)) * (1/5) + 1/4)) ≤ 3) := by
    rintro ⟨hc, -⟩
    linarith
  rw [fitFullF]
  rw [if_neg (by norm_num [c9d]), if_neg (by norm_num),
    if_neg (not_lt.mpr c9e_nonneg), if_neg (by norm_num [c9d]),
    if_neg (by norm_num [c9d])]
  simp only [c9_chordF1, c9tol, c9_fitStepF1]
  rw [if_neg (by norm_num [c9u0F, c9d]), if_neg habs, if_neg hwin]
  simp only [fitAfter]
  rw [if_neg habs,
    if_pos ⟨hneg, by simp, by simp [c9t1, Prod.ext_iff]⟩]
